import Mathlib

/-!
Shallow embedding of the wsim turn-resolution engine (backend/wsim_core and
backend/wsim_api/routers/games.py) in Lean 4, together with theorems settling
the claims about it.

Modelling conventions:
* Python ints are `Int`; pydantic `Field(ge=0)` constraints are stated as
  hypotheses or proved as invariants rather than baked into the types.
* `HexCoord` construction raises (pydantic validation) on a negative
  coordinate; call sites that catch that exception are modelled with
  `Option`, call sites that pre-check bounds are modelled with the same
  explicit checks.
* Python dicts keyed by ship id (insertion-ordered, unique keys) are
  modelled as `List Ship` in insertion order, each key equal to the
  ship's `id` field; lookups are `List.find?`.
* Free-form event fields (`summary`, `metadata`, `state_diff`,
  `modifiers`) are not modelled; an event keeps its turn number, phase
  and `event_type` tag, which is all the claims inspect.
* Exceptions / HTTP error responses are modelled with `Except`; the
  distinct error constructors mirror the distinct raise sites.
-/

/-- Ship facing direction (models `wsim_core.models.common.Facing`,
an eight-value enum). -/
inductive Facing where
  | N | NE | E | SE | S | SW | W | NW
deriving DecidableEq, Repr

/-- Wind direction (models `WindDirection`, same eight values as `Facing`). -/
inductive WindDirection where
  | N | NE | E | SE | S | SW | W | NW
deriving DecidableEq, Repr

/-- Models `WindDirection(value)` → `Facing(value)` conversion used in drift. -/
def WindDirection.toFacing : WindDirection → Facing
  | .N => .N | .NE => .NE | .E => .E | .SE => .SE
  | .S => .S | .SW => .SW | .W => .W | .NW => .NW

/-- Player side (models `Side`). -/
inductive Side where
  | P1 | P2
deriving DecidableEq, Repr

/-- Broadside load state (models `LoadState`). -/
inductive LoadState where
  | EMPTY | ROUNDSHOT
deriving DecidableEq, Repr

/-- Game phase (models `GamePhase`). -/
inductive GamePhase where
  | PLANNING | MOVEMENT | COMBAT | RELOAD
deriving DecidableEq, Repr

/-- Broadside identifier (models `Broadside`). -/
inductive Broadside where
  | L | R
deriving DecidableEq, Repr

/-- Combat aim point (models `AimPoint`). -/
inductive AimPoint where
  | HULL | RIGGING
deriving DecidableEq, Repr

/-- Hex coordinate, models `wsim_core.models.hex.HexCoord`.
The pydantic model validates `col ≥ 0` and `row ≥ 0` at construction;
here coordinates are `Int` and validity is the predicate `HexCoord.valid`. -/
structure HexCoord where
  col : Int
  row : Int
deriving DecidableEq, Repr

/-- The pydantic `ge=0` validation of `HexCoord`. -/
def HexCoord.valid (h : HexCoord) : Prop := 0 ≤ h.col ∧ 0 ≤ h.row

instance (h : HexCoord) : Decidable h.valid := by
  unfold HexCoord.valid; infer_instance

/-- Per-direction `(col_offset, row_offset_even_col, row_offset_odd_col)`
table shared verbatim by `movement_executor.get_adjacent_hex`,
`movement_executor.execute_ship_forward_movement` and `drift.apply_drift`. -/
def direction_offsets : Facing → Int × Int × Int
  | .N  => (0, -1, -1)
  | .NE => (1, -1, 0)
  | .SE => (1, 0, 1)
  | .S  => (0, 1, 1)
  | .SW => (-1, 0, 1)
  | .NW => (-1, -1, 0)
  | .E  => (1, 0, 0)
  | .W  => (-1, 0, 0)

/-- The raw coordinate arithmetic of
`movement_executor.get_adjacent_hex` (before pydantic validation):
pick the row offset by column parity and add the offsets. -/
def get_adjacent_raw (hex_coord : HexCoord) (direction : Facing) : HexCoord :=
  let is_odd_col := hex_coord.col % 2 == 1
  let off := direction_offsets direction
  let row_offset := if is_odd_col then off.2.2 else off.2.1
  ⟨hex_coord.col + off.1, hex_coord.row + row_offset⟩

/-- Models `movement_executor.get_adjacent_hex`: returns the neighbour, or
`none` where the Python code raises pydantic validation (a negative
coordinate). -/
def get_adjacent_hex (hex_coord : HexCoord) (direction : Facing) : Option HexCoord :=
  let h := get_adjacent_raw hex_coord direction
  if h.valid then some h else none

/-- Models `movement_executor.calculate_stern_from_bow`'s opposite-direction
table (also used, on the spec side, for wind). -/
def opposite_facing : Facing → Facing
  | .N => .S | .NE => .SW | .E => .W | .SE => .NW
  | .S => .N | .SW => .NE | .W => .E | .NW => .SE

/-- Models `movement_executor.calculate_stern_from_bow`. -/
def calculate_stern_from_bow (bow : HexCoord) (facing : Facing) : Option HexCoord :=
  get_adjacent_hex bow (opposite_facing facing)

/-- Cube-coordinate conversion used by `arc.hex_distance`:
`q = col, r = row - (col - (col & 1)) // 2, s = -q - r`
(coordinates are validated non-negative, where `//` is exact). -/
def offset_to_cube (hex_coord : HexCoord) : Int × Int × Int :=
  let q := hex_coord.col
  let r := hex_coord.row - (hex_coord.col - hex_coord.col % 2) / 2
  (q, r, -q - r)

/-- Models `arc.hex_distance`: cube distance `(|dq|+|dr|+|ds|) // 2`
(the sum is even, so the division is exact). -/
def hex_distance (hex1 hex2 : HexCoord) : Int :=
  let c1 := offset_to_cube hex1
  let c2 := offset_to_cube hex2
  ((c1.1 - c2.1).natAbs + (c1.2.1 - c2.2.1).natAbs + (c1.2.2 - c2.2.2).natAbs : Int) / 2

/-- Types of atomic movement actions
(models `movement_parser.MovementActionType`). -/
inductive MovementActionType where
  | TURN_LEFT | TURN_RIGHT | MOVE_FORWARD | NO_MOVEMENT
deriving DecidableEq, Repr

/-- A single atomic movement action (models `movement_parser.MovementAction`;
`distance` defaults to 1 in the source constructor). -/
structure MovementAction where
  action_type : MovementActionType
  distance : Int := 1
deriving DecidableEq, Repr

/-- Result of parsing a movement string
(models `movement_parser.ParsedMovement`; the field echoing the original
input string is not modelled). -/
structure ParsedMovement where
  actions : List MovementAction
  total_forward_hexes : Int
deriving DecidableEq, Repr

/-- Distinct raise sites of `movement_parser.MovementParseError`
(the Python exception carries only a message; the constructors record the
same data the messages interpolate). -/
inductive MovementParseError where
  | empty
  | zero_in_sequence (position : Nat)
  | invalid_char (c : Char) (position : Nat)
  | no_actions
  | exceeds_allowance (total allowance : Int)
deriving DecidableEq, Repr

/-- Value of a digit character, models Python `int(char)`. -/
def digit_val (c : Char) : Int := (c.toNat : Int) - ('0'.toNat : Int)

/-- The character-by-character loop of `movement_parser.parse_movement`
(`i` is the running position used in error messages). -/
def parse_movement_chars :
    List Char → Nat → Except MovementParseError (List MovementAction × Int)
  | [], _ => .ok ([], 0)
  | c :: rest, i =>
    if c = 'L' then
      match parse_movement_chars rest (i + 1) with
      | .error e => .error e
      | .ok (acts, tot) => .ok (⟨MovementActionType.TURN_LEFT, 1⟩ :: acts, tot)
    else if c = 'R' then
      match parse_movement_chars rest (i + 1) with
      | .error e => .error e
      | .ok (acts, tot) => .ok (⟨MovementActionType.TURN_RIGHT, 1⟩ :: acts, tot)
    else if c.isDigit then
      if c = '0' then .error (.zero_in_sequence i)
      else
        match parse_movement_chars rest (i + 1) with
        | .error e => .error e
        | .ok (acts, tot) =>
            .ok (⟨MovementActionType.MOVE_FORWARD, digit_val c⟩ :: acts,
                 digit_val c + tot)
    else .error (.invalid_char c i)

/-- Whitespace stripping from both ends (Python `str.strip`). -/
def strip_chars (cs : List Char) : List Char :=
  ((cs.dropWhile Char.isWhitespace).reverse.dropWhile Char.isWhitespace).reverse

/-- The `notation.strip().upper()` normalisation of
`movement_parser.parse_movement` (the claims involve only ASCII input,
where `Char.toUpper` agrees with Python `str.upper`). -/
def normalize_moves (s : String) : String :=
  String.mk ((strip_chars s.toList).map Char.toUpper)

/-- Models `movement_parser.parse_movement`. -/
def parse_movement (s : String) : Except MovementParseError ParsedMovement :=
  if s.isEmpty then .error .empty
  else
    let ns := normalize_moves s
    if ns.isEmpty then .error .empty
    else if ns = "0" then
      .ok ⟨[⟨MovementActionType.NO_MOVEMENT, 0⟩], 0⟩
    else
      match parse_movement_chars ns.toList 0 with
      | .error e => .error e
      | .ok (acts, tot) =>
          if acts = [] then .error .no_actions
          else .ok ⟨acts, tot⟩

/-- Models `movement_parser.validate_movement_within_allowance`. -/
def validate_movement_within_allowance (parsed_movement : ParsedMovement)
    (movement_allowance : Int) : Except MovementParseError Unit :=
  if parsed_movement.total_forward_hexes > movement_allowance then
    .error (.exceeds_allowance parsed_movement.total_forward_hexes movement_allowance)
  else .ok ()

/-- The action a single valid atom character produces, `none` for the two
invalid cases (`'0'` in a sequence, any other character). -/
def atom_action (c : Char) : Option MovementAction :=
  if c = 'L' then some ⟨MovementActionType.TURN_LEFT, 1⟩
  else if c = 'R' then some ⟨MovementActionType.TURN_RIGHT, 1⟩
  else if c.isDigit ∧ c ≠ '0' then some ⟨MovementActionType.MOVE_FORWARD, digit_val c⟩
  else none

/-- Forward-hex contribution of one atom character. -/
def atom_forward (c : Char) : Int :=
  if c.isDigit ∧ c ≠ '0' then digit_val c else 0

/-- Ship state, models `wsim_core.models.ship.Ship` field for field
(numeric fields are `Int`; the pydantic `ge` bounds are proved as
invariants, see the track non-negativity theorems). -/
structure Ship where
  id : String
  name : String
  side : Side
  bow_hex : HexCoord
  stern_hex : HexCoord
  facing : Facing
  battle_sail_speed : Int
  guns_L : Int
  guns_R : Int
  carronades_L : Int := 0
  carronades_R : Int := 0
  hull : Int
  rigging : Int
  crew : Int
  marines : Int
  load_L : LoadState
  load_R : LoadState
  fouled : Bool := false
  struck : Bool := false
  turns_without_bow_advance : Int := 0
deriving DecidableEq, Repr

/-- Models `arc._get_adjacent_directions`: the neighbours of a direction in
the clockwise eight-direction cycle. -/
def get_adjacent_directions (direction : Facing) : List Facing :=
  match direction with
  | .N  => [.NW, .NE]
  | .NE => [.N, .E]
  | .E  => [.NE, .SE]
  | .SE => [.E, .S]
  | .S  => [.SE, .SW]
  | .SW => [.S, .W]
  | .W  => [.SW, .NW]
  | .NW => [.W, .N]

/-- Models `arc._get_broadside_directions`: the three primary arc directions
per (facing, broadside), from the source's `perpendicular_map`. -/
def get_broadside_directions (facing : Facing) (broadside : Broadside) : List Facing :=
  match facing, broadside with
  | .N,  .L => [.W, .NW, .SW]
  | .N,  .R => [.E, .NE, .SE]
  | .NE, .L => [.NW, .N, .W]
  | .NE, .R => [.SE, .S, .E]
  | .E,  .L => [.N, .NE, .NW]
  | .E,  .R => [.S, .SE, .SW]
  | .SE, .L => [.NE, .E, .N]
  | .SE, .R => [.SW, .W, .S]
  | .S,  .L => [.E, .SE, .NE]
  | .S,  .R => [.W, .SW, .NW]
  | .SW, .L => [.SE, .S, .E]
  | .SW, .R => [.NW, .N, .W]
  | .W,  .L => [.S, .SW, .SE]
  | .W,  .R => [.N, .NW, .NE]
  | .NW, .L => [.SW, .W, .S]
  | .NW, .R => [.NE, .E, .N]

/-- The loop body of `arc._trace_arc_cone`, by remaining steps:
`distance` is the loop counter (starting at 1), `current` the hex reached so
far.  Stepping out (pydantic failure, caught in the source) stops the trace;
a widening hex that fails validation is skipped. -/
def trace_arc_cone_from (direction : Facing) :
    Nat → Nat → HexCoord → List HexCoord
  | 0, _, _ => []
  | fuel + 1, distance, current =>
    match get_adjacent_hex current direction with
    | none => []
    | some nxt =>
      let widened :=
        if distance > 1 then
          (get_adjacent_directions direction).filterMap
            (fun adj_dir => get_adjacent_hex nxt adj_dir)
        else []
      nxt :: widened ++ trace_arc_cone_from direction fuel (distance + 1) nxt

/-- Models `arc._trace_arc_cone` (hexes contributed by one primary
direction; the source accumulates into a set, here the list of added
hexes — only membership is ever consumed). -/
def trace_arc_cone (start_hex : HexCoord) (direction : Facing)
    (max_range : Nat) : List HexCoord :=
  trace_arc_cone_from direction max_range 1 start_hex

/-- Models `arc.get_broadside_arc_hexes` (as a list whose membership is the
source set's membership). -/
def get_broadside_arc_hexes (ship : Ship) (broadside : Broadside)
    (max_range : Nat := 10) : List HexCoord :=
  (get_broadside_directions ship.facing broadside).flatMap
    (fun direction => trace_arc_cone ship.bow_hex direction max_range)

/-- Models `arc.is_hex_in_broadside_arc`. -/
def is_hex_in_broadside_arc (ship : Ship) (target_hex : HexCoord)
    (broadside : Broadside) (max_range : Nat := 10) : Bool :=
  let distance := hex_distance ship.bow_hex target_hex
  if distance > (max_range : Int) ∨ distance = 0 then false
  else decide (target_hex ∈ get_broadside_arc_hexes ship broadside max_range)

/-- Result of a single broadside firing, models `combat.HitResult`
(die rolls kept, free-form modifier map not modelled). -/
structure HitResult where
  hits : Int
  crew_casualties : Int
  gun_damage : Int
  range : Int
  range_bracket : String
  die_rolls : List Int := []
deriving DecidableEq, Repr

/-- The pydantic `ge=0` validations on `combat.HitResult`. -/
def HitResult.wf (hit_result : HitResult) : Prop :=
  0 ≤ hit_result.hits ∧ 0 ≤ hit_result.crew_casualties ∧ 0 ≤ hit_result.gun_damage

instance (hit_result : HitResult) : Decidable hit_result.wf := by
  unfold HitResult.wf; infer_instance

/-- Models `combat.can_fire_broadside`. -/
def can_fire_broadside (ship : Ship) (broadside : Broadside) : Bool :=
  if ship.struck then false
  else
    let load_state := if broadside = Broadside.L then ship.load_L else ship.load_R
    if load_state = LoadState.EMPTY then false
    else
      let num_guns := if broadside = Broadside.L then ship.guns_L else ship.guns_R
      num_guns > 0

/-- The per-ship body of the loop in `combat.get_legal_targets`:
skip self, friends, struck ships and ships outside the arc or beyond
`max_range`; otherwise yield the ship with its bow-to-bow distance. -/
def target_filter (firing_ship : Ship) (arc_hexes : List HexCoord)
    (max_range : Nat) (ship : Ship) : Option (Ship × Int) :=
  if ship.id = firing_ship.id then none
  else if ship.side = firing_ship.side then none
  else if ship.struck then none
  else if ship.bow_hex ∈ arc_hexes ∨ ship.stern_hex ∈ arc_hexes then
    let distance := hex_distance firing_ship.bow_hex ship.bow_hex
    if distance ≤ (max_range : Int) then some (ship, distance) else none
  else none

/-- Models `combat.get_legal_targets`: enemy, non-struck ships with bow or
stern in the arc and bow-to-bow distance at most `max_range`, filtered to
those at the minimum such distance. -/
def get_legal_targets (firing_ship : Ship) (all_ships : List Ship)
    (broadside : Broadside) (max_range : Nat := 10) : List Ship :=
  let arc_hexes := get_broadside_arc_hexes firing_ship broadside max_range
  let enemy_ships_in_arc : List (Ship × Int) :=
    all_ships.filterMap (target_filter firing_ship arc_hexes max_range)
  match (enemy_ships_in_arc.map (fun p => p.2)).min? with
  | none => []
  | some min_distance =>
      (enemy_ships_in_arc.filter (fun p => p.2 = min_distance)).map (fun p => p.1)

/-- Models `combat.apply_damage` (the damage applier the `fire_broadside`
endpoint uses): hull or rigging clamp, casualties applied directly to crew,
gun damage split proportionally, struck set when hull is at 0. -/
def apply_damage (ship : Ship) (hit_result : HitResult) (aim : AimPoint)
    (broadside : Broadside) : Ship :=
  let _ := broadside
  let ship : Ship :=
    if aim = AimPoint.HULL then
      { ship with hull := max 0 (ship.hull - hit_result.hits) }
    else
      { ship with rigging := max 0 (ship.rigging - hit_result.hits) }
  let ship : Ship :=
    if hit_result.crew_casualties > 0 then
      { ship with crew := max 0 (ship.crew - hit_result.crew_casualties) }
    else ship
  let ship : Ship :=
    if hit_result.gun_damage > 0 then
      let total_guns := ship.guns_L + ship.guns_R
      if total_guns > 0 then
        let damage_left := hit_result.gun_damage * ship.guns_L / total_guns
        let damage_right := hit_result.gun_damage - damage_left
        { ship with guns_L := max 0 (ship.guns_L - damage_left),
                    guns_R := max 0 (ship.guns_R - damage_right) }
      else ship
    else ship
  if ship.hull ≤ 0 then { ship with struck := true } else ship

/-- Record of a damage application, models `damage.DamageApplication`. -/
structure DamageApplication where
  hull_damage : Int
  rigging_damage : Int
  crew_lost : Int
  marines_lost : Int
  guns_lost_L : Int
  guns_lost_R : Int
  struck : Bool
  previous_hull : Int
  previous_rigging : Int
  previous_crew : Int
  previous_marines : Int
  previous_guns_L : Int
  previous_guns_R : Int
deriving DecidableEq, Repr

/-- The even-distribution `while` loop of `damage._apply_gun_damage`
(the `target_broadside is None` branch), with state
`(remaining, guns_L, guns_R, lost_L, lost_R)`.  One round runs the two
sequential `if` bodies of the source loop (take a left gun when any is
left, then a right gun when damage and right guns remain), giving the
four combined outcomes spelled out here.  The fuel is the initial
`remaining` as a natural number: every round whose guard holds decreases
`remaining` by at least one, so the loop is exhausted within that many
rounds (the final inner branch is unreachable: its conditions contradict
the guard). -/
def distribute_gun_damage_loop :
    Nat → Int → Int → Int → Int → Int → Int × Int × Int × Int
  | 0, _, guns_L, guns_R, lost_L, lost_R => (guns_L, guns_R, lost_L, lost_R)
  | fuel + 1, remaining, guns_L, guns_R, lost_L, lost_R =>
    if remaining > 0 ∧ (guns_L > 0 ∨ guns_R > 0) then
      if guns_L > 0 then
        if remaining - 1 > 0 ∧ guns_R > 0 then
          distribute_gun_damage_loop fuel (remaining - 2) (guns_L - 1)
            (guns_R - 1) (lost_L + 1) (lost_R + 1)
        else
          distribute_gun_damage_loop fuel (remaining - 1) (guns_L - 1)
            guns_R (lost_L + 1) lost_R
      else
        if remaining > 0 ∧ guns_R > 0 then
          distribute_gun_damage_loop fuel (remaining - 1) guns_L
            (guns_R - 1) lost_L (lost_R + 1)
        else
          distribute_gun_damage_loop fuel remaining guns_L guns_R lost_L lost_R
    else (guns_L, guns_R, lost_L, lost_R)

/-- Models `damage._apply_gun_damage`: returns the updated ship together
with `(guns_lost_L, guns_lost_R)`. -/
def apply_gun_damage (ship : Ship) (gun_damage : Int)
    (target_broadside : Option Broadside) : Ship × Int × Int :=
  match target_broadside with
  | some Broadside.L =>
      ({ ship with guns_L := max 0 (ship.guns_L - gun_damage) },
       min gun_damage ship.guns_L, 0)
  | some Broadside.R =>
      ({ ship with guns_R := max 0 (ship.guns_R - gun_damage) },
       0, min gun_damage ship.guns_R)
  | none =>
      let r := distribute_gun_damage_loop gun_damage.toNat gun_damage
                  ship.guns_L ship.guns_R 0 0
      ({ ship with guns_L := r.1, guns_R := r.2.1 }, r.2.2.1, r.2.2.2)

/-- Models `damage._check_struck_condition`: hull just dropped to 0, or
crew + marines is 0 after this application. -/
def check_struck_condition (ship : Ship) (previous_hull : Int)
    (previous_crew : Int) : Bool :=
  let _ := previous_crew
  if ship.hull = 0 ∧ previous_hull > 0 then true
  else ship.crew + ship.marines = 0

/-- The casualty block of `damage.apply_hit_result_to_ship`
(apply to marines first, then the remainder to crew); returns the updated
ship with `(crew_killed, marines_killed)`. -/
def apply_casualties (ship : Ship) (casualties : Int) : Ship × Int × Int :=
  if casualties > 0 then
    let marines_killed := min casualties ship.marines
    let ship1 : Ship := { ship with marines := max 0 (ship.marines - marines_killed) }
    let remaining_casualties := casualties - marines_killed
    if remaining_casualties > 0 then
      let crew_killed := min remaining_casualties ship1.crew
      ({ ship1 with crew := max 0 (ship1.crew - crew_killed) },
       crew_killed, marines_killed)
    else (ship1, 0, marines_killed)
  else (ship, 0, 0)

/-- The aim-dependent damage block of `damage.apply_hit_result_to_ship`:
hull hits, casualties and gun damage for HULL aim, rigging hits only for
RIGGING aim; returns the updated ship with
`(hull_damage, rigging_damage, crew_lost, marines_lost, guns_lost_L,
guns_lost_R)`. -/
def apply_hit_damage (ship : Ship) (hit_result : HitResult) (aim : AimPoint)
    (target_broadside : Option Broadside) :
    Ship × Int × Int × Int × Int × Int × Int :=
  if aim = AimPoint.HULL then
    let hull_damage := min hit_result.hits ship.hull
    let ship1 : Ship := { ship with hull := max 0 (ship.hull - hit_result.hits) }
    let cas := apply_casualties ship1 hit_result.crew_casualties
    let guns : Ship × Int × Int :=
      if hit_result.gun_damage > 0 then
        apply_gun_damage cas.1 hit_result.gun_damage target_broadside
      else (cas.1, 0, 0)
    (guns.1, hull_damage, 0, cas.2.1, cas.2.2, guns.2.1, guns.2.2)
  else
    let rigging_damage := min hit_result.hits ship.rigging
    ({ ship with rigging := max 0 (ship.rigging - hit_result.hits) },
     0, rigging_damage, 0, 0, 0, 0)

/-- Models `damage.apply_hit_result_to_ship` (the marines-first damage
applier): record the previous state, run the aim-dependent damage block,
check the struck condition, and return the updated ship together with the
`DamageApplication` record. -/
def apply_hit_result_to_ship (ship : Ship) (hit_result : HitResult)
    (aim : AimPoint) (target_broadside : Option Broadside := none) :
    Ship × DamageApplication :=
  let state := apply_hit_damage ship hit_result aim target_broadside
  let ship1 := state.1
  let struck := check_struck_condition ship1 ship.hull ship.crew
  let ship2 : Ship := if struck then { ship1 with struck := true } else ship1
  (ship2,
   { hull_damage := state.2.1
     rigging_damage := state.2.2.1
     crew_lost := state.2.2.2.1
     marines_lost := state.2.2.2.2.1
     guns_lost_L := state.2.2.2.2.2.1
     guns_lost_R := state.2.2.2.2.2.2
     struck := struck
     previous_hull := ship.hull
     previous_rigging := ship.rigging
     previous_crew := ship.crew
     previous_marines := ship.marines
     previous_guns_L := ship.guns_L
     previous_guns_R := ship.guns_R })

/-- Event log entry, models `wsim_core.models.events.EventLogEntry`
restricted to the structured fields the claims inspect (`turn_number`,
`phase`, `event_type`); the free-form text and metadata fields are not
modelled. -/
structure EventLogEntry where
  turn_number : Int
  phase : GamePhase
  event_type : String
deriving DecidableEq, Repr

/-- Movement orders for a single ship (models `orders.ShipOrders`). -/
structure ShipOrders where
  ship_id : String
  movement_string : String
deriving DecidableEq, Repr

/-- All orders for one player for one turn (models `orders.TurnOrders`). -/
structure TurnOrders where
  turn_number : Int
  side : Side
  orders : List ShipOrders
  submitted : Bool := false
  ready : Bool := false
deriving DecidableEq, Repr

/-- Complete game state, models `wsim_core.models.game.Game`.
`ships` is the id-keyed, insertion-ordered dict, modelled as a list in
insertion order whose entries carry their own key in `Ship.id`. -/
structure Game where
  id : String
  scenario_id : String
  turn_number : Int := 1
  phase : GamePhase := GamePhase.PLANNING
  map_width : Int
  map_height : Int
  wind_direction : WindDirection
  ships : List Ship
  p1_orders : Option TurnOrders := none
  p2_orders : Option TurnOrders := none
  event_log : List EventLogEntry := []
  turn_limit : Option Int := none
  victory_condition : String := "first_struck"
  game_ended : Bool := false
  winner : Option Side := none
deriving DecidableEq, Repr

/-- Models `Game.get_ship` / `game.ships[ship_id]` dict lookup
(`find?` on the id-keyed list). -/
def Game.get_ship (game : Game) (ship_id : String) : Option Ship :=
  game.ships.find? (fun s => s.id = ship_id)

/-- The dict invariant of `Game.ships`: ship ids are pairwise distinct. -/
def ships_wf (ships : List Ship) : Prop :=
  ships.Pairwise (fun a b => a.id ≠ b.id)

instance (ships : List Ship) : Decidable (ships_wf ships) := by
  unfold ships_wf; infer_instance

/-- Models `Game.get_ships_by_side`. -/
def get_ships_by_side (game : Game) (side : Side) : List Ship :=
  game.ships.filter (fun s => s.side = side)

/-- Result of a victory condition check, models `victory.VictoryResult`
(the free-form `reason` and `details` fields are not modelled). -/
structure VictoryResult where
  game_ended : Bool
  winner : Option Side := none
deriving DecidableEq, Repr

/-- Models `victory.check_first_struck`: the first struck ship in
iteration order loses; its opponent wins. -/
def check_first_struck (game : Game) : VictoryResult :=
  match game.ships.filter (fun ship => ship.struck) with
  | [] => { game_ended := false }
  | struck_ship :: _ =>
      { game_ended := true
        winner := some (if struck_ship.side = Side.P1 then Side.P2 else Side.P1) }

/-- Models `victory.check_score_after_turns`: at the turn limit, compare
total remaining hull per side. -/
def check_score_after_turns (game : Game) : VictoryResult :=
  match game.turn_limit with
  | none => { game_ended := false }
  | some turn_limit =>
    if game.turn_number < turn_limit then { game_ended := false }
    else
      let p1_hull : Int := ((get_ships_by_side game Side.P1).map (fun s => s.hull)).sum
      let p2_hull : Int := ((get_ships_by_side game Side.P2).map (fun s => s.hull)).sum
      if p1_hull > p2_hull then { game_ended := true, winner := some Side.P1 }
      else if p2_hull > p1_hull then { game_ended := true, winner := some Side.P2 }
      else { game_ended := true, winner := none }

/-- Models `victory.check_first_side_struck_two_ships`. -/
def check_first_side_struck_two_ships (game : Game) : VictoryResult :=
  let p1_struck_count := ((get_ships_by_side game Side.P1).filter (fun s => s.struck)).length
  let p2_struck_count := ((get_ships_by_side game Side.P2).filter (fun s => s.struck)).length
  if p1_struck_count ≥ 2 then { game_ended := true, winner := some Side.P2 }
  else if p2_struck_count ≥ 2 then { game_ended := true, winner := some Side.P1 }
  else { game_ended := false }

/-- Models `victory.check_victory_condition`: dispatch on the victory
condition tag; `none` models the `ValueError` on an unknown tag. -/
def check_victory_condition (game : Game) : Option VictoryResult :=
  if game.victory_condition = "first_struck" then some (check_first_struck game)
  else if game.victory_condition = "score_after_turns" then
    some (check_score_after_turns game)
  else if game.victory_condition = "first_side_struck_two_ships" then
    some (check_first_side_struck_two_ships game)
  else none

/-- Models `victory.create_victory_event` (a `game_end` event). -/
def create_victory_event (result : VictoryResult) (turn_number : Int)
    (phase : GamePhase) : EventLogEntry :=
  let _ := result
  { turn_number := turn_number, phase := phase, event_type := "game_end" }

/-- Models `reload.reload_broadside` (returns the updated ship and whether
the broadside was reloaded). -/
def reload_broadside (ship : Ship) (broadside : Broadside) : Ship × Bool :=
  let current_state := if broadside = Broadside.L then ship.load_L else ship.load_R
  if current_state ≠ LoadState.EMPTY then (ship, false)
  else if broadside = Broadside.L then
    ({ ship with load_L := LoadState.ROUNDSHOT }, true)
  else
    ({ ship with load_R := LoadState.ROUNDSHOT }, true)

/-- Models `reload.reload_ship`: reload both broadsides. -/
def reload_ship (ship : Ship) : Ship × Bool × Bool :=
  let l := reload_broadside ship Broadside.L
  let r := reload_broadside l.1 Broadside.R
  (r.1, l.2, r.2)

/-- Models `reload.reload_all_ships` as it is used by the
`resolve_reload` endpoint: struck ships are skipped (left unchanged),
every other ship has its empty broadsides reloaded. -/
def reload_all_ships (ships : List Ship) : List Ship :=
  ships.map (fun ship => if ship.struck then ship else (reload_ship ship).1)

/-- Models `drift.get_downwind_direction` (opposite of the wind). -/
def get_downwind_direction : WindDirection → WindDirection
  | .N => .S | .NE => .SW | .E => .W | .SE => .NW
  | .S => .N | .SW => .NE | .W => .E | .NW => .SE

/-- Models `drift.update_drift_tracking`: reset the counter for ships whose
bow advanced, increment it for the rest (`movement_result.get(id, False)`
is a lookup in the id → bow-advanced map, default `False`). -/
def update_drift_tracking (ships : List Ship)
    (movement_result : List (String × Bool)) : List Ship :=
  ships.map (fun ship =>
    let bow_advanced :=
      match movement_result.find? (fun p => p.1 = ship.id) with
      | some p => p.2
      | none => false
    if bow_advanced then { ship with turns_without_bow_advance := 0 }
    else { ship with turns_without_bow_advance := ship.turns_without_bow_advance + 1 })

/-- The per-ship body of the loop in `drift.apply_drift`: either the ship
does not drift (counter below 2), drifts one hex downwind (bow and stern,
counter reset, `drift` event), or is blocked by the map edge
(`drift_blocked` event, ship unchanged).  Returns the updated ship and
the events this ship contributes.  The source computes the candidate
coordinates with the inlined offset table (to avoid constructing a
`HexCoord` before the bounds check); that arithmetic is exactly
`get_adjacent_raw`. -/
def drift_one_ship (ship : Ship) (downwind_facing : Facing)
    (map_width map_height : Int) (turn_number : Int) :
    Ship × List EventLogEntry :=
  if ship.turns_without_bow_advance ≥ 2 then
    let new_bow := get_adjacent_raw ship.bow_hex downwind_facing
    let new_stern := get_adjacent_raw ship.stern_hex downwind_facing
    if new_bow.col < 0 ∨ new_bow.col ≥ map_width
        ∨ new_bow.row < 0 ∨ new_bow.row ≥ map_height
        ∨ new_stern.col < 0 ∨ new_stern.col ≥ map_width
        ∨ new_stern.row < 0 ∨ new_stern.row ≥ map_height then
      (ship, [{ turn_number := turn_number, phase := GamePhase.MOVEMENT,
                event_type := "drift_blocked" }])
    else
      ({ ship with bow_hex := new_bow,
                   stern_hex := new_stern,
                   turns_without_bow_advance := 0 },
       [{ turn_number := turn_number, phase := GamePhase.MOVEMENT,
          event_type := "drift" }])
  else (ship, [])

/-- Models `drift.apply_drift`: apply `drift_one_ship` to every ship in
iteration order, collecting events in the same order. -/
def apply_drift (ships : List Ship) (wind_direction : WindDirection)
    (map_width map_height : Int) (turn_number : Int) :
    List Ship × List EventLogEntry :=
  let downwind_facing := (get_downwind_direction wind_direction).toFacing
  (ships.map (fun ship =>
      (drift_one_ship ship downwind_facing map_width map_height turn_number).1),
   ships.flatMap (fun ship =>
      (drift_one_ship ship downwind_facing map_width map_height turn_number).2))

/-- Models `drift.check_and_apply_drift`: tracking update then drift. -/
def check_and_apply_drift (ships : List Ship)
    (movement_result : List (String × Bool)) (wind_direction : WindDirection)
    (map_width map_height : Int) (turn_number : Int) :
    List Ship × List EventLogEntry :=
  apply_drift (update_drift_tracking ships movement_result)
    wind_direction map_width map_height turn_number

/-- Models `movement_executor.turn_left`. -/
def turn_left : Facing → Facing
  | .N => .NW | .NE => .N | .E => .NE | .SE => .E
  | .S => .SE | .SW => .S | .W => .SW | .NW => .W

/-- Models `movement_executor.turn_right`. -/
def turn_right : Facing → Facing
  | .N => .NE | .NE => .E | .E => .SE | .SE => .S
  | .S => .SW | .SW => .W | .W => .NW | .NW => .N

/-- Raise sites of `movement_executor.MovementExecutionError`. -/
inductive MovementExecutionError where
  | invalid_turn_direction
  | out_of_bounds
  | exceeds_battle_sail_speed
  | ship_not_found
deriving DecidableEq, Repr

/-- Models `movement_executor.execute_ship_turn` (facing update plus stern
recomputation; a negative recomputed stern coordinate propagates the
pydantic error). -/
def execute_ship_turn (ship : Ship) (turn_direction : MovementActionType) :
    Except MovementExecutionError Ship :=
  match
    (match turn_direction with
     | MovementActionType.TURN_LEFT => some (turn_left ship.facing)
     | MovementActionType.TURN_RIGHT => some (turn_right ship.facing)
     | _ => none) with
  | none => .error .invalid_turn_direction
  | some new_facing =>
    match calculate_stern_from_bow ship.bow_hex new_facing with
    | none => .error .out_of_bounds
    | some new_stern =>
        .ok { ship with facing := new_facing, stern_hex := new_stern }

/-- The per-step loop of `movement_executor.execute_ship_forward_movement`:
advance the bow one offset step at a time, failing when a step leaves
`[0, map_width) × [0, map_height)`. -/
def forward_steps (facing : Facing) (map_width map_height : Int) :
    Nat → Int × Int → Except MovementExecutionError (Int × Int)
  | 0, pos => .ok pos
  | n + 1, (col, row) =>
    let off := direction_offsets facing
    let row_offset := if col % 2 == 1 then off.2.2 else off.2.1
    let new_col := col + off.1
    let new_row := row + row_offset
    if new_col < 0 ∨ new_col ≥ map_width ∨ new_row < 0 ∨ new_row ≥ map_height then
      .error .out_of_bounds
    else forward_steps facing map_width map_height n (new_col, new_row)

/-- Models `movement_executor.execute_ship_forward_movement`. -/
def execute_ship_forward_movement (ship : Ship) (distance : Int)
    (map_width map_height : Int) : Except MovementExecutionError Ship :=
  if distance ≤ 0 then .ok ship
  else
    match forward_steps ship.facing map_width map_height distance.toNat
        (ship.bow_hex.col, ship.bow_hex.row) with
    | .error e => .error e
    | .ok (new_col, new_row) =>
      let new_bow : HexCoord := ⟨new_col, new_row⟩
      match calculate_stern_from_bow new_bow ship.facing with
      | none => .error .out_of_bounds
      | some new_stern => .ok { ship with bow_hex := new_bow, stern_hex := new_stern }

/-- Dict assignment `updated[ship_id] = value` on the id-keyed ship list:
replace the entry with that key, or append when the key is absent. -/
def dict_set_ship (ships : List Ship) (ship_id : String) (value : Ship) :
    List Ship :=
  if ships.any (fun s => s.id = ship_id) then
    ships.map (fun s => if s.id = ship_id then value else s)
  else ships ++ [value]

/-- Collision resolution record, models `collision.CollisionResolution`
restricted to the fields `apply_collision_resolution` consumes. -/
structure CollisionResolution where
  collision_hex : HexCoord
  ship_ids_involved : List String
  occupying_ship_id : String
  displaced_ship_ids : List String
deriving DecidableEq, Repr

/-- Models `collision.apply_collision_resolution`: each displaced ship that
exists in the pre-movement snapshot is restored to its pre-movement state. -/
def apply_collision_resolution (ships ships_before : List Ship)
    (resolution : CollisionResolution) : List Ship :=
  resolution.displaced_ship_ids.foldl
    (fun updated_ships ship_id =>
      match ships_before.find? (fun s => s.id = ship_id) with
      | none => updated_ships
      | some previous_ship => dict_set_ship updated_ships ship_id previous_ship)
    ships

/-- The distinct `HTTPException` raise sites of the games router
(`wsim_api/routers/games.py`); status codes and interpolated detail
strings are abstracted to tags. -/
inductive ApiError where
  | game_not_found
  | turn_mismatch
  | wrong_phase
  | ship_not_found
  | cannot_fire
  | no_legal_targets
  | illegal_target
  | target_not_found
  | unknown_victory_condition
  | game_over
deriving DecidableEq, Repr

/-- Request body of the fire endpoint, models
`games.FireBroadsideRequest` (the `pattern`-validated `broadside` and
`aim` strings are modelled by their parsed enums, matching the parse on
lines 568-569 of the router). -/
structure FireBroadsideRequest where
  ship_id : String
  broadside : Broadside
  target_ship_id : String
  aim : AimPoint
deriving DecidableEq, Repr

/-- Models `reload.mark_broadside_fired` (also inlined at
`games.py` lines 649-652): the fired broadside goes EMPTY. -/
def mark_broadside_fired (ship : Ship) (broadside : Broadside) : Ship :=
  if broadside = Broadside.L then { ship with load_L := LoadState.EMPTY }
  else { ship with load_R := LoadState.EMPTY }

/-- The ship-map update a successful fire performs (`games.py` lines
645-652): the target takes `apply_damage`, the firing ship's broadside is
marked empty. -/
def fire_update_ships (ships : List Ship) (request : FireBroadsideRequest)
    (target_ship : Ship) (hit_result : HitResult) : List Ship :=
  let damaged := apply_damage target_ship hit_result request.aim request.broadside
  (ships.map (fun s => if s.id = request.target_ship_id then damaged else s)).map
    (fun s => if s.id = request.ship_id then mark_broadside_fired s request.broadside
              else s)

/-- The composite effect of the fire update on one ship entry (the two
sequential dict updates of `fire_update_ships`, per element). -/
def fire_update_one (request : FireBroadsideRequest) (damaged : Ship)
    (s : Ship) : Ship :=
  let s1 := if s.id = request.target_ship_id then damaged else s
  if s1.id = request.ship_id then mark_broadside_fired s1 request.broadside else s1

/-- Modelled from the spec: the victory-check stage that runs at the end of
a successful `fire_broadside` call.  The provided copy of
`wsim_api/routers/games.py` does not contain this stage, although the
repository's own tests exercise it and cite its location ("lines 694-699
... where victory conditions are checked after combat resolution",
`tests/test_games_router.py`); the dispatcher `check_victory_condition`
and the `game_end` event constructor `create_victory_event` are in the
sources (`wsim_core/engine/victory.py`) and are embedded above from them.
Per spec §4.11/§6: run the victory check on the post-damage state; if it
reports the game ended, set `game_ended` and `winner` and append a
`game_end` event; an unknown victory tag raises. -/
def fire_victory_check (game : Game) (turn : Int) :
    Except ApiError Game :=
  match check_victory_condition game with
  | none => .error .unknown_victory_condition
  | some result =>
    if result.game_ended then
      .ok { game with
              game_ended := true
              winner := result.winner
              event_log := game.event_log
                ++ [create_victory_event result turn GamePhase.COMBAT] }
    else .ok game

/-- Models the `fire_broadside` endpoint (`games.py` lines 516-695).
The dice-and-hit-table stage (`resolve_broadside_fire`, which consumes an
OS-entropy RNG and the external `hit_tables.json` data file) is abstracted
by taking its `HitResult` output as the `hit_result` argument; everything
around it follows the router: turn and phase validation, firing-ship
lookup, `can_fire_broadside`, the closest-target rule via
`get_legal_targets`, damage application via `combat.apply_damage`, marking
the fired broadside empty, and appending the `broadside_fire` event.  The
final victory-check stage is `fire_victory_check` (see its comment). -/
def fire_broadside (game : Game) (turn : Int)
    (request : FireBroadsideRequest) (hit_result : HitResult) :
    Except ApiError Game :=
  if turn ≠ game.turn_number then .error .turn_mismatch
  else if game.phase ≠ GamePhase.COMBAT then .error .wrong_phase
  else
    match game.get_ship request.ship_id with
    | none => .error .ship_not_found
    | some firing_ship =>
      if ¬ can_fire_broadside firing_ship request.broadside then
        .error .cannot_fire
      else
        let legal_targets := get_legal_targets firing_ship game.ships request.broadside
        if legal_targets = [] then .error .no_legal_targets
        else if ¬ legal_targets.any (fun s => s.id = request.target_ship_id) then
          .error .illegal_target
        else
          match game.get_ship request.target_ship_id with
          | none => .error .target_not_found
          | some target_ship =>
            fire_victory_check
              { game with
                  ships := fire_update_ships game.ships request target_ship hit_result
                  event_log := game.event_log ++
                    [{ turn_number := turn, phase := GamePhase.COMBAT,
                       event_type := "broadside_fire" }] }
              turn

/-- Modelled from the spec: the `game_ended` freeze guard, "`advance_turn`
may only run from RELOAD and is refused if `game_ended`" (§4.12; §6 lists
`not ended` among `advance_turn`'s preconditions; §4.11: any
`game_ended=true` result freezes the game).  The provided copy of
`wsim_api/routers/games.py` contains no victory wiring at all (see
`fire_victory_check`), so this guard is taken from the spec's words. -/
def require_not_ended (game : Game) : Except ApiError Unit :=
  if game.game_ended then .error .game_over else .ok ()

/-- Models the `advance_turn` endpoint (`games.py` lines 872-926) plus the
spec-modelled `require_not_ended` freeze guard: validate the turn number
and RELOAD phase, then increment `turn_number`, clear both players'
orders and return to PLANNING. -/
def advance_turn (game : Game) (turn : Int) : Except ApiError Game :=
  if turn ≠ game.turn_number then .error .turn_mismatch
  else if game.phase ≠ GamePhase.RELOAD then .error .wrong_phase
  else
    match require_not_ended game with
    | .error e => .error e
    | .ok _ =>
      .ok { game with
              turn_number := game.turn_number + 1
              p1_orders := none
              p2_orders := none
              phase := GamePhase.PLANNING }

/-- The legal-target set exactly as the claim (and spec §4.7) words it, for
comparison with `get_legal_targets`: enemy, non-struck ships with bow or
stern in the arc, at the minimum bow-to-bow distance among such ships —
with no cap of that distance at `max_range`.  This is a spec-side
definition, not a translation of the source. -/
def legal_targets_claimed (firing_ship : Ship) (all_ships : List Ship)
    (broadside : Broadside) (max_range : Nat := 10) : List Ship :=
  let arc_hexes := get_broadside_arc_hexes firing_ship broadside max_range
  let in_arc : List (Ship × Int) :=
    all_ships.filterMap (fun ship =>
      if ship.id = firing_ship.id then none
      else if ship.side = firing_ship.side then none
      else if ship.struck then none
      else if ship.bow_hex ∈ arc_hexes ∨ ship.stern_hex ∈ arc_hexes then
        some (ship, hex_distance firing_ship.bow_hex ship.bow_hex)
      else none)
  match (in_arc.map (fun p => p.2)).min? with
  | none => []
  | some min_distance =>
      (in_arc.filter (fun p => p.2 = min_distance)).map (fun p => p.1)

/-- Concrete firing ship for the Scenario E / Scenario F style examples:
P1 frigate at bow (10,10) facing E (stern (9,10)). -/
def scenario_firing : Ship :=
  { id := "f1", name := "Defiant", side := .P1,
    bow_hex := ⟨10, 10⟩, stern_hex := ⟨9, 10⟩, facing := .E,
    battle_sail_speed := 4, guns_L := 10, guns_R := 10,
    hull := 10, rigging := 10, crew := 10, marines := 2,
    load_L := .ROUNDSHOT, load_R := .ROUNDSHOT }

/-- Concrete near enemy, one hull point left: P2 frigate at bow (10,14)
facing N (stern (10,15)), four hexes from `scenario_firing`'s bow and in
its right-broadside arc. -/
def scenario_near_enemy : Ship :=
  { id := "t1", name := "Chimere", side := .P2,
    bow_hex := ⟨10, 14⟩, stern_hex := ⟨10, 15⟩, facing := .N,
    battle_sail_speed := 4, guns_L := 10, guns_R := 10,
    hull := 1, rigging := 10, crew := 10, marines := 2,
    load_L := .ROUNDSHOT, load_R := .ROUNDSHOT }

/-- Concrete far enemy at bow (10,18), eight hexes away, also in the
right-broadside arc — an illegal target under the closest-target rule. -/
def scenario_far_enemy : Ship :=
  { id := "t2", name := "Sirene", side := .P2,
    bow_hex := ⟨10, 18⟩, stern_hex := ⟨10, 19⟩, facing := .N,
    battle_sail_speed := 4, guns_L := 10, guns_R := 10,
    hull := 10, rigging := 10, crew := 10, marines := 2,
    load_L := .ROUNDSHOT, load_R := .ROUNDSHOT }

/-- Concrete first-struck game in COMBAT phase holding the three ships
above. -/
def scenario_game : Game :=
  { id := "g1", scenario_id := "frigate_duel", turn_number := 1,
    phase := .COMBAT, map_width := 40, map_height := 40,
    wind_direction := .N,
    ships := [scenario_firing, scenario_near_enemy, scenario_far_enemy] }

/-- A one-hit, no-casualty hit result at medium range. -/
def one_hit : HitResult :=
  { hits := 1, crew_casualties := 0, gun_damage := 0,
    range := 4, range_bracket := "medium" }

/-- A one-hit result carrying one crew casualty. -/
def one_hit_one_casualty : HitResult :=
  { hits := 1, crew_casualties := 1, gun_damage := 0,
    range := 4, range_bracket := "medium" }

/-- Variant of the near enemy with full hull (so a single hit does not
sink it), used to observe casualty handling in isolation. -/
def sturdy_near_enemy : Ship := { scenario_near_enemy with hull := 12 }

/-- `scenario_game` with the sturdy near enemy. -/
def sturdy_game : Game :=
  { scenario_game with
      ships := [scenario_firing, sturdy_near_enemy, scenario_far_enemy] }

/-- Boundary-geometry firing ship: P1 frigate at bow (10,20) facing E
(stern (9,20)); the tenth step of its left-broadside North trace is
(10,10), whose cone-widening NE neighbour (11,9) lies at hex distance 11. -/
def boundary_firing : Ship :=
  { id := "bf", name := "Argus", side := .P1,
    bow_hex := ⟨10, 20⟩, stern_hex := ⟨9, 20⟩, facing := .E,
    battle_sail_speed := 4, guns_L := 10, guns_R := 10,
    hull := 10, rigging := 10, crew := 10, marines := 2,
    load_L := .ROUNDSHOT, load_R := .ROUNDSHOT }

/-- Boundary-geometry enemy with its bow on the widened arc hex (11,9),
eleven hexes from `boundary_firing`'s bow (stern (11,8), facing S). -/
def boundary_enemy : Ship :=
  { id := "be", name := "Furieuse", side := .P2,
    bow_hex := ⟨11, 9⟩, stern_hex := ⟨11, 8⟩, facing := .S,
    battle_sail_speed := 4, guns_L := 10, guns_R := 10,
    hull := 10, rigging := 10, crew := 10, marines := 2,
    load_L := .ROUNDSHOT, load_R := .ROUNDSHOT }

/-- Ship map for the boundary example. -/
def boundary_ships : List Ship := [boundary_firing, boundary_enemy]

/-- A ship with nobody left aboard (crew 0, marines 0) but sound hull,
not struck — a legal target, used against the struck-condition claim. -/
def ghost_ship : Ship :=
  { id := "gh", name := "Marie Celeste", side := .P2,
    bow_hex := ⟨10, 14⟩, stern_hex := ⟨10, 15⟩, facing := .N,
    battle_sail_speed := 4, guns_L := 10, guns_R := 10,
    hull := 5, rigging := 10, crew := 0, marines := 0,
    load_L := .ROUNDSHOT, load_R := .ROUNDSHOT }

/-- A hit result with no effect at all (zero hits, casualties, guns). -/
def zero_hit : HitResult :=
  { hits := 0, crew_casualties := 0, gun_damage := 0,
    range := 4, range_bracket := "medium" }

/-- A reload-phase game for exercising `advance_turn`. -/
def reload_phase_game : Game :=
  { scenario_game with phase := .RELOAD,
                       p1_orders := some ⟨1, .P1, [], true, true⟩,
                       p2_orders := some ⟨1, .P2, [], true, true⟩ }

/-- A ship becalmed for two turns (drift counter 2) well inside a 40 × 40
map, and one hard against the North edge (bow row 0, wind from the S). -/
def becalmed_ship : Ship := { scenario_firing with turns_without_bow_advance := 2 }

/-- A counter-2 ship whose downwind hex is off the map's north edge
(bow (10,0), stern (10,1), wind from the south so drift goes north). -/
def edge_ship : Ship :=
  { scenario_firing with id := "edge", bow_hex := ⟨10, 0⟩, stern_hex := ⟨10, 1⟩,
                         facing := .N, turns_without_bow_advance := 2 }

/-- The hexes of the `[0, map_width) × [0, map_height)` map. -/
def in_bounds (map_width map_height : Int) (h : HexCoord) : Prop :=
  0 ≤ h.col ∧ h.col < map_width ∧ 0 ≤ h.row ∧ h.row < map_height

instance (mw mh : Int) (h : HexCoord) : Decidable (in_bounds mw mh h) := by
  unfold in_bounds; infer_instance

/-- Non-negativity of the six damage tracks of a ship (the §8 invariant). -/
def tracks_nonneg (ship : Ship) : Prop :=
  0 ≤ ship.hull ∧ 0 ≤ ship.rigging ∧ 0 ≤ ship.crew ∧ 0 ≤ ship.marines ∧
  0 ≤ ship.guns_L ∧ 0 ≤ ship.guns_R

instance (ship : Ship) : Decidable (tracks_nonneg ship) := by
  unfold tracks_nonneg; infer_instance

/-- A first-struck COMBAT game containing the firing ship and the crewless
`ghost_ship`. -/
def ghost_game : Game :=
  { id := "g2", scenario_id := "frigate_duel", turn_number := 1,
    phase := .COMBAT, map_width := 40, map_height := 40,
    wind_direction := .N, ships := [scenario_firing, ghost_ship] }

/-- The six damage tracks of a ship, as one tuple (for stating that an
operation leaves them unchanged). -/
def tracks_of (ship : Ship) : Int × Int × Int × Int × Int × Int :=
  (ship.hull, ship.rigging, ship.crew, ship.marines, ship.guns_L, ship.guns_R)

/-- The per-ship candidate conditions of `combat.get_legal_targets`:
an enemy, non-struck ship with bow or stern in the arc whose bow-to-bow
distance is within `max_range`. -/
def legal_candidate (firing_ship : Ship) (broadside : Broadside)
    (max_range : Nat) (ship : Ship) : Prop :=
  ship.id ≠ firing_ship.id ∧ ship.side ≠ firing_ship.side ∧
  ship.struck = false ∧
  (ship.bow_hex ∈ get_broadside_arc_hexes firing_ship broadside max_range ∨
   ship.stern_hex ∈ get_broadside_arc_hexes firing_ship broadside max_range) ∧
  hex_distance firing_ship.bow_hex ship.bow_hex ≤ (max_range : Int)

instance (firing_ship : Ship) (broadside : Broadside) (max_range : Nat)
    (ship : Ship) : Decidable (legal_candidate firing_ship broadside max_range ship) := by
  unfold legal_candidate; infer_instance

/-- The fire request of the Scenario E/F examples: ship f1 fires its right
broadside at t1, aiming at the hull. -/
def scenario_fire_request : FireBroadsideRequest :=
  { ship_id := "f1", broadside := Broadside.R, target_ship_id := "t1",
    aim := AimPoint.HULL }

/-- The game a successful Scenario F fire produces (computed). -/
def scenario_fire_result : Game :=
  ((fire_broadside scenario_game 1 scenario_fire_request one_hit).toOption).getD
    scenario_game

/-- The game the casualty example fire produces (computed). -/
def sturdy_fire_result : Game :=
  ((fire_broadside sturdy_game 1 scenario_fire_request
      one_hit_one_casualty).toOption).getD sturdy_game

/-- COMBAT-phase game holding the boundary-geometry ships. -/
def boundary_game : Game := { scenario_game with ships := boundary_ships }

/-! ## Theorems -/

/-- Helper: `List.min?` on integers characterised as the least member. -/
theorem int_min?_eq_some_iff (l : List Int) (a : Int) :
    l.min? = some a ↔ a ∈ l ∧ ∀ b ∈ l, a ≤ b := by
  have : Std.Antisymm (fun x1 x2 : Int => x1 ≤ x2) :=
    ⟨fun h h' => le_antisymm h h'⟩
  exact List.min?_eq_some_iff (fun a => le_refl a) (fun a b => min_choice a b)
    (fun a b c => le_min_iff)

/-- Helper: hex distances are never negative. -/
theorem hex_distance_nonneg (h1 h2 : HexCoord) : 0 ≤ hex_distance h1 h2 := by
  unfold hex_distance
  exact Int.ediv_nonneg (by positivity) (by norm_num)

/-- C10: the cardinal east neighbour coincides with a diagonal neighbour —
`get_adjacent_hex h E` equals `get_adjacent_hex h SE` on even columns and
`get_adjacent_hex h NE` on odd columns, symmetrically `W` with `SW`/`NW`;
consequently every one of the eight directions lands on one of the six
natural hex neighbours. -/
theorem C10_cardinal_neighbours (h : HexCoord) :
    (h.col % 2 = 0 →
      get_adjacent_hex h Facing.E = get_adjacent_hex h Facing.SE ∧
      get_adjacent_hex h Facing.W = get_adjacent_hex h Facing.SW) ∧
    (h.col % 2 = 1 →
      get_adjacent_hex h Facing.E = get_adjacent_hex h Facing.NE ∧
      get_adjacent_hex h Facing.W = get_adjacent_hex h Facing.NW) ∧
    (∀ direction : Facing, ∃ natural : Facing,
      natural ≠ Facing.E ∧ natural ≠ Facing.W ∧
      get_adjacent_raw h direction = get_adjacent_raw h natural) := by
  refine ⟨fun heven => ?_, fun hodd => ?_, fun direction => ?_⟩
  · have hb : (h.col % 2 == 1) = false := by
      simp only [beq_eq_false_iff_ne]; omega
    constructor <;>
      simp [get_adjacent_hex, get_adjacent_raw, direction_offsets, hb]
  · have hb : (h.col % 2 == 1) = true := by simp [hodd]
    constructor <;>
      simp [get_adjacent_hex, get_adjacent_raw, direction_offsets, hb]
  · have hpar : h.col % 2 = 0 ∨ h.col % 2 = 1 := by omega
    cases direction with
    | E =>
      rcases hpar with hp | hp
      · exact ⟨Facing.SE, by decide, by decide, by
          have hb : (h.col % 2 == 1) = false := by
            simp only [beq_eq_false_iff_ne]; omega
          simp [get_adjacent_raw, direction_offsets, hb]⟩
      · exact ⟨Facing.NE, by decide, by decide, by
          have hb : (h.col % 2 == 1) = true := by simp [hp]
          simp [get_adjacent_raw, direction_offsets, hb]⟩
    | W =>
      rcases hpar with hp | hp
      · exact ⟨Facing.SW, by decide, by decide, by
          have hb : (h.col % 2 == 1) = false := by
            simp only [beq_eq_false_iff_ne]; omega
          simp [get_adjacent_raw, direction_offsets, hb]⟩
      · exact ⟨Facing.NW, by decide, by decide, by
          have hb : (h.col % 2 == 1) = true := by simp [hp]
          simp [get_adjacent_raw, direction_offsets, hb]⟩
    | N => exact ⟨Facing.N, by decide, by decide, rfl⟩
    | NE => exact ⟨Facing.NE, by decide, by decide, rfl⟩
    | SE => exact ⟨Facing.SE, by decide, by decide, rfl⟩
    | S => exact ⟨Facing.S, by decide, by decide, rfl⟩
    | SW => exact ⟨Facing.SW, by decide, by decide, rfl⟩
    | NW => exact ⟨Facing.NW, by decide, by decide, rfl⟩

/-- C10 witness: the equalities evaluated at the even column (2,5) and the
odd column (3,5). -/
theorem C10_witness :
    ((2 : Int) % 2 = 0 ∧
      get_adjacent_hex ⟨2, 5⟩ Facing.E = get_adjacent_hex ⟨2, 5⟩ Facing.SE) ∧
    ((3 : Int) % 2 = 1 ∧
      get_adjacent_hex ⟨3, 5⟩ Facing.E = get_adjacent_hex ⟨3, 5⟩ Facing.NE) :=
  ⟨⟨by decide, ((C10_cardinal_neighbours ⟨2, 5⟩).1 (by decide)).1⟩,
   ⟨by decide, ((C10_cardinal_neighbours ⟨3, 5⟩).2.1 (by decide)).1⟩⟩

/-- C9: `is_hex_in_broadside_arc` holds exactly when the hex is in the arc
set and its bow distance is between 1 and `max_range`; and the
cone-widening step really does put a hex of distance `max_range + 1` into
the arc set, so the membership predicate and the raw arc set disagree at
the range boundary (witnessed at `boundary_firing` with hex (11,9)). -/
theorem C9_arc_membership :
    (∀ (ship : Ship) (target_hex : HexCoord) (broadside : Broadside)
        (max_range : Nat), 1 ≤ max_range →
      (is_hex_in_broadside_arc ship target_hex broadside max_range = true ↔
        (target_hex ∈ get_broadside_arc_hexes ship broadside max_range ∧
         1 ≤ hex_distance ship.bow_hex target_hex ∧
         hex_distance ship.bow_hex target_hex ≤ (max_range : Int)))) ∧
    ((⟨11, 9⟩ : HexCoord) ∈ get_broadside_arc_hexes boundary_firing Broadside.L 10 ∧
     hex_distance boundary_firing.bow_hex ⟨11, 9⟩ = 11 ∧
     is_hex_in_broadside_arc boundary_firing ⟨11, 9⟩ Broadside.L 10 = false) := by
  constructor
  · intro ship target_hex broadside max_range _hr
    have hd := hex_distance_nonneg ship.bow_hex target_hex
    simp only [is_hex_in_broadside_arc]
    split_ifs with hcond
    · simp only [Bool.false_eq_true, false_iff]
      rintro ⟨-, h1, h2⟩
      omega
    · simp only [decide_eq_true_eq]
      push_neg at hcond
      exact ⟨fun hm => ⟨hm, by omega, by omega⟩, fun hm => hm.1⟩
  · exact ⟨by decide, by decide, by decide⟩

/-- C9 witness: the membership equivalence evaluated at `boundary_firing`
and the straight-line hex (10,15), five hexes north of its bow. -/
theorem C9_witness :
    1 ≤ 10 ∧
    (is_hex_in_broadside_arc boundary_firing ⟨10, 15⟩ Broadside.L 10 = true ↔
      ((⟨10, 15⟩ : HexCoord) ∈ get_broadside_arc_hexes boundary_firing Broadside.L 10 ∧
       1 ≤ hex_distance boundary_firing.bow_hex ⟨10, 15⟩ ∧
       hex_distance boundary_firing.bow_hex ⟨10, 15⟩ ≤ (10 : Int))) :=
  ⟨by decide, C9_arc_membership.1 boundary_firing ⟨10, 15⟩ Broadside.L 10 (by decide)⟩

/-- C4: `advance_turn` succeeds exactly when the supplied turn matches,
the phase is RELOAD and the game has not ended (the last guard modelled
from the spec, see `require_not_ended`); on success it increments the turn
number, clears both players' orders and returns to PLANNING; in every
other case it returns an error (and, the model being a pure function on
snapshots, no state change occurs). -/
theorem C4_advance_turn_gating (game : Game) (turn : Int) :
    ((∃ g', advance_turn game turn = .ok g') ↔
      (turn = game.turn_number ∧ game.phase = GamePhase.RELOAD ∧
       game.game_ended = false)) ∧
    (∀ g', advance_turn game turn = .ok g' →
      g' = { game with
               turn_number := game.turn_number + 1
               p1_orders := none
               p2_orders := none
               phase := GamePhase.PLANNING }) := by
  unfold advance_turn require_not_ended
  constructor
  · constructor
    · rintro ⟨g', hg⟩
      split_ifs at hg with h1 h2 h3 <;> simp_all
    · rintro ⟨h1, h2, h3⟩
      refine ⟨{ game with
                  turn_number := game.turn_number + 1
                  p1_orders := none
                  p2_orders := none
                  phase := GamePhase.PLANNING }, ?_⟩
      simp [h1, h2, h3]
  · intro g' hg
    split_ifs at hg with h1 h2 h3 <;> simp_all

/-- C4 witness: advancing `reload_phase_game` from turn 1 succeeds. -/
theorem C4_witness :
    (1 = reload_phase_game.turn_number ∧
     reload_phase_game.phase = GamePhase.RELOAD ∧
     reload_phase_game.game_ended = false) ∧
    ∃ g', advance_turn reload_phase_game 1 = .ok g' :=
  ⟨⟨rfl, rfl, rfl⟩,
   (C4_advance_turn_gating reload_phase_game 1).1.mpr ⟨rfl, rfl, rfl⟩⟩

/-- Helper: successful runs of the parser loop produce exactly one action
per character (turns for L/R, one `MOVE_FORWARD` per digit), every
character is a valid atom, and the total is the sum of the digit values. -/
theorem parse_movement_chars_ok (cs : List Char) (i : Nat)
    (acts : List MovementAction) (tot : Int)
    (h : parse_movement_chars cs i = .ok (acts, tot)) :
    acts = cs.filterMap atom_action ∧ (∀ c ∈ cs, atom_action c ≠ none) ∧
    tot = (cs.map atom_forward).sum := by
  induction cs generalizing i acts tot with
  | nil =>
    simp only [parse_movement_chars, Except.ok.injEq, Prod.mk.injEq] at h
    simp [h.1.symm, h.2.symm]
  | cons c rest ih =>
    cases hrec : parse_movement_chars rest (i + 1) with
    | error e =>
      simp only [parse_movement_chars, hrec] at h
      split_ifs at h
    | ok p =>
      obtain ⟨acts', tot'⟩ := p
      obtain ⟨ha, hall, ht⟩ := ih (i + 1) acts' tot' hrec
      simp only [parse_movement_chars, hrec] at h
      split_ifs at h with h1 h2 h3 h4
      · rw [Except.ok.injEq, Prod.mk.injEq] at h
        obtain ⟨h5, h6⟩ := h
        subst h5
        subst h6
        subst h1
        refine ⟨by simp [atom_action, ha], ?_, by simp [atom_forward, ht]⟩
        intro x hx
        simp only [List.mem_cons] at hx
        rcases hx with rfl | hx
        · simp [atom_action]
        · exact hall _ hx
      · rw [Except.ok.injEq, Prod.mk.injEq] at h
        obtain ⟨h5, h6⟩ := h
        subst h5
        subst h6
        subst h2
        refine ⟨by simp [atom_action, h1, ha], ?_, by simp [atom_forward, h1, ht]⟩
        intro x hx
        simp only [List.mem_cons] at hx
        rcases hx with rfl | hx
        · simp [atom_action, h1]
        · exact hall _ hx
      · rw [Except.ok.injEq, Prod.mk.injEq] at h
        obtain ⟨h5, h6⟩ := h
        subst h5
        subst h6
        refine ⟨by simp [atom_action, h1, h2, h3, h4, ha], ?_,
          by simp [atom_forward, h3, h4, ht]⟩
        intro x hx
        simp only [List.mem_cons] at hx
        rcases hx with rfl | hx
        · simp [atom_action, h1, h2, h3, h4]
        · exact hall _ hx

/-- Helper: an `Except` value that is not a success is an error. -/
theorem except_not_ok {ε α : Type} (r : Except ε α)
    (h : ¬ ∃ v, r = .ok v) : ∃ e, r = .error e := by
  cases r with
  | error e => exact ⟨e, rfl⟩
  | ok v => exact absurd ⟨v, rfl⟩ h

/-- C7: the movement grammar — `"0"` alone parses to the single
`NO_MOVEMENT` action; each `L`/`R` is one turn action and each digit 1-9
one separate `MOVE_FORWARD(digit)` action (adjacent digits are not
concatenated: `"12"` is two moves) with the total equal to the sum of the
digits; `"L1R1"` parses to the four-action list with total 2; a `'0'`
inside a longer sequence or any invalid character is an error; a total
exceeding the allowance makes the allowance validation raise. -/
theorem C7_parse_movement_grammar :
    (parse_movement "0" = .ok ⟨[⟨MovementActionType.NO_MOVEMENT, 0⟩], 0⟩) ∧
    (parse_movement "L1R1" = .ok ⟨[⟨MovementActionType.TURN_LEFT, 1⟩,
        ⟨MovementActionType.MOVE_FORWARD, 1⟩, ⟨MovementActionType.TURN_RIGHT, 1⟩,
        ⟨MovementActionType.MOVE_FORWARD, 1⟩], 2⟩) ∧
    (parse_movement "12" = .ok ⟨[⟨MovementActionType.MOVE_FORWARD, 1⟩,
        ⟨MovementActionType.MOVE_FORWARD, 2⟩], 3⟩) ∧
    (∀ (s : String) (pm : ParsedMovement), parse_movement s = .ok pm →
      normalize_moves s ≠ "0" →
      pm.actions = (normalize_moves s).toList.filterMap atom_action ∧
      (∀ c ∈ (normalize_moves s).toList, atom_action c ≠ none) ∧
      pm.total_forward_hexes = ((normalize_moves s).toList.map atom_forward).sum) ∧
    (∀ s : String, (∃ c ∈ (normalize_moves s).toList, atom_action c = none) →
      normalize_moves s ≠ "0" → ∃ e, parse_movement s = .error e) ∧
    (∀ (pm : ParsedMovement) (allowance : Int),
      pm.total_forward_hexes > allowance →
      validate_movement_within_allowance pm allowance =
        .error (.exceeds_allowance pm.total_forward_hexes allowance)) := by
  have hmain : ∀ (s : String) (pm : ParsedMovement), parse_movement s = .ok pm →
      normalize_moves s ≠ "0" →
      pm.actions = (normalize_moves s).toList.filterMap atom_action ∧
      (∀ c ∈ (normalize_moves s).toList, atom_action c ≠ none) ∧
      pm.total_forward_hexes = ((normalize_moves s).toList.map atom_forward).sum := by
    intro s pm hok hns
    simp only [parse_movement] at hok
    rw [if_neg hns] at hok
    split_ifs at hok
    cases hc : parse_movement_chars (normalize_moves s).toList 0 with
    | error e => rw [hc] at hok; exact absurd hok (by simp)
    | ok p =>
      obtain ⟨acts, tot⟩ := p
      rw [hc] at hok
      dsimp only at hok
      split_ifs at hok
      obtain rfl : pm = ⟨acts, tot⟩ := by
        cases hok; rfl
      exact parse_movement_chars_ok _ 0 acts tot hc
  refine ⟨by rfl, by rfl, by rfl, hmain, ?_, ?_⟩
  · intro s hbad hns
    apply except_not_ok
    rintro ⟨pm, hok⟩
    obtain ⟨c, hc, hcnone⟩ := hbad
    exact (hmain s pm hok hns).2.1 c hc hcnone
  · intro pm allowance hgt
    unfold validate_movement_within_allowance
    simp [hgt]

/-- C7 witness: the generic characterisation applied to the string "L2". -/
theorem C7_witness :
    parse_movement "L2" = .ok ⟨[⟨MovementActionType.TURN_LEFT, 1⟩,
      ⟨MovementActionType.MOVE_FORWARD, 2⟩], 2⟩ ∧
    normalize_moves "L2" ≠ "0" ∧
    ([⟨MovementActionType.TURN_LEFT, 1⟩,
      ⟨MovementActionType.MOVE_FORWARD, 2⟩] : List MovementAction) =
      (normalize_moves "L2").toList.filterMap atom_action :=
  ⟨by rfl, by decide,
   (C7_parse_movement_grammar.2.2.2.1 "L2"
      ⟨[⟨MovementActionType.TURN_LEFT, 1⟩, ⟨MovementActionType.MOVE_FORWARD, 2⟩], 2⟩
      (by rfl) (by decide)).1⟩

/-- C6: drift moves a counter-≥2 ship's bow and stern exactly one hex in
the direction opposite the wind with facing unchanged and the counter
reset to 0, unless either candidate hex leaves
`[0, map_width) × [0, map_height)`, in which case a `drift_blocked` event
is emitted and bow, stern, facing and counter are all unchanged; ships
with counter below 2 are untouched; consequently drift never moves a ship
onto an out-of-bounds hex. -/
theorem C6_drift_bounds (ships : List Ship) (wind : WindDirection)
    (map_width map_height turn_number : Int) :
    ((get_downwind_direction wind).toFacing = opposite_facing wind.toFacing) ∧
    ((apply_drift ships wind map_width map_height turn_number).1 =
      ships.map (fun s =>
        (drift_one_ship s ((get_downwind_direction wind).toFacing)
          map_width map_height turn_number).1)) ∧
    (∀ s ∈ ships,
      (s.turns_without_bow_advance ≥ 2 →
        (in_bounds map_width map_height
            (get_adjacent_raw s.bow_hex ((get_downwind_direction wind).toFacing)) ∧
         in_bounds map_width map_height
            (get_adjacent_raw s.stern_hex ((get_downwind_direction wind).toFacing)) →
          (drift_one_ship s ((get_downwind_direction wind).toFacing)
              map_width map_height turn_number).1 =
            { s with
                bow_hex := get_adjacent_raw s.bow_hex
                  ((get_downwind_direction wind).toFacing)
                stern_hex := get_adjacent_raw s.stern_hex
                  ((get_downwind_direction wind).toFacing)
                turns_without_bow_advance := 0 } ∧
          (⟨turn_number, GamePhase.MOVEMENT, "drift"⟩ : EventLogEntry) ∈
            (apply_drift ships wind map_width map_height turn_number).2) ∧
        (¬(in_bounds map_width map_height
            (get_adjacent_raw s.bow_hex ((get_downwind_direction wind).toFacing)) ∧
           in_bounds map_width map_height
            (get_adjacent_raw s.stern_hex ((get_downwind_direction wind).toFacing))) →
          (drift_one_ship s ((get_downwind_direction wind).toFacing)
              map_width map_height turn_number).1 = s ∧
          (⟨turn_number, GamePhase.MOVEMENT, "drift_blocked"⟩ : EventLogEntry) ∈
            (apply_drift ships wind map_width map_height turn_number).2)) ∧
      (s.turns_without_bow_advance < 2 →
        (drift_one_ship s ((get_downwind_direction wind).toFacing)
            map_width map_height turn_number).1 = s) ∧
      (∀ s', s' = (drift_one_ship s ((get_downwind_direction wind).toFacing)
            map_width map_height turn_number).1 → s' ≠ s →
        in_bounds map_width map_height s'.bow_hex ∧
        in_bounds map_width map_height s'.stern_hex)) := by
  refine ⟨by cases wind <;> rfl, rfl, ?_⟩
  intro s hs
  refine ⟨fun h2 => ⟨fun hin => ?_, fun hout => ?_⟩, fun hlt => ?_, ?_⟩
  · unfold drift_one_ship
    rw [if_pos h2]
    unfold in_bounds at hin
    rw [if_neg (by omega)]
    refine ⟨rfl, ?_⟩
    unfold apply_drift
    refine List.mem_flatMap.mpr ⟨s, hs, ?_⟩
    unfold drift_one_ship
    rw [if_pos h2]
    rw [if_neg (by omega)]
    simp
  · unfold drift_one_ship
    rw [if_pos h2]
    unfold in_bounds at hout
    rw [if_pos (by omega)]
    refine ⟨rfl, ?_⟩
    unfold apply_drift
    refine List.mem_flatMap.mpr ⟨s, hs, ?_⟩
    unfold drift_one_ship
    rw [if_pos h2]
    rw [if_pos (by omega)]
    simp
  · unfold drift_one_ship
    rw [if_neg (by omega)]
  · intro s' hs' hne
    simp only [drift_one_ship] at hs'
    split_ifs at hs' with h2 hoob
    · exact absurd hs' hne
    · subst hs'
      push_neg at hoob
      unfold in_bounds
      dsimp only
      refine ⟨⟨?_, ?_, ?_, ?_⟩, ?_, ?_, ?_, ?_⟩ <;> omega
    · exact absurd hs' hne

/-- Helper: the even gun-distribution loop keeps both gun counts
non-negative (it only decrements a count it has checked to be positive). -/
theorem distribute_gun_damage_loop_nonneg (fuel : Nat)
    (remaining gl gr lostL lostR : Int) (hgl : 0 ≤ gl) (hgr : 0 ≤ gr) :
    0 ≤ (distribute_gun_damage_loop fuel remaining gl gr lostL lostR).1 ∧
    0 ≤ (distribute_gun_damage_loop fuel remaining gl gr lostL lostR).2.1 := by
  induction fuel generalizing remaining gl gr lostL lostR with
  | zero => exact ⟨hgl, hgr⟩
  | succ n ih =>
    unfold distribute_gun_damage_loop
    split_ifs with hguard h1 h2 h3 <;>
      first
        | exact ih _ _ _ _ _ (by omega) (by omega)
        | exact ⟨hgl, hgr⟩

/-- Helper: `combat.apply_damage` keeps every track non-negative. -/
theorem apply_damage_tracks_nonneg (ship : Ship) (hit_result : HitResult)
    (aim : AimPoint) (broadside : Broadside) (h : tracks_nonneg ship) :
    tracks_nonneg (apply_damage ship hit_result aim broadside) := by
  unfold apply_damage
  unfold tracks_nonneg at *
  dsimp only
  split_ifs <;> dsimp only <;> omega

/-- Helper: `damage._apply_gun_damage` keeps every track non-negative. -/
theorem apply_gun_damage_nonneg (ship : Ship) (gun_damage : Int)
    (target_broadside : Option Broadside) (h : tracks_nonneg ship) :
    tracks_nonneg (apply_gun_damage ship gun_damage target_broadside).1 := by
  unfold tracks_nonneg at *
  match target_broadside with
  | some Broadside.L => unfold apply_gun_damage; dsimp only; omega
  | some Broadside.R => unfold apply_gun_damage; dsimp only; omega
  | none =>
    have hl := distribute_gun_damage_loop_nonneg gun_damage.toNat gun_damage
      ship.guns_L ship.guns_R 0 0 (by omega) (by omega)
    unfold apply_gun_damage
    dsimp only
    exact ⟨h.1, h.2.1, h.2.2.1, h.2.2.2.1, hl.1, hl.2⟩

/-- Helper: the marines-first casualty block keeps every track
non-negative. -/
theorem apply_casualties_nonneg (ship : Ship) (casualties : Int)
    (h : tracks_nonneg ship) :
    tracks_nonneg (apply_casualties ship casualties).1 := by
  unfold apply_casualties
  unfold tracks_nonneg at *
  dsimp only
  split_ifs <;> dsimp only <;> omega

/-- Helper: `damage.apply_hit_result_to_ship` keeps every track
non-negative. -/
theorem apply_hit_result_tracks_nonneg (ship : Ship) (hit_result : HitResult)
    (aim : AimPoint) (target_broadside : Option Broadside)
    (h : tracks_nonneg ship) :
    tracks_nonneg (apply_hit_result_to_ship ship hit_result aim target_broadside).1 := by
  have hdam : tracks_nonneg (apply_hit_damage ship hit_result aim target_broadside).1 := by
    unfold apply_hit_damage
    split_ifs with ha hg
    · exact apply_gun_damage_nonneg _ _ _
        (apply_casualties_nonneg _ _ (by unfold tracks_nonneg at *; dsimp only; omega))
    · exact apply_casualties_nonneg _ _ (by unfold tracks_nonneg at *; dsimp only; omega)
    · unfold tracks_nonneg at *; dsimp only; omega
  unfold apply_hit_result_to_ship
  dsimp only
  split_ifs
  · unfold tracks_nonneg at hdam ⊢
    dsimp only
    exact hdam
  · exact hdam

/-- Helper: the per-ship target filter succeeds exactly on legal
candidates, yielding the ship paired with its bow-to-bow distance. -/
theorem target_filter_eq_some (firing_ship : Ship) (broadside : Broadside)
    (max_range : Nat) (x : Ship) (y : Ship × Int) :
    target_filter firing_ship (get_broadside_arc_hexes firing_ship broadside max_range)
        max_range x = some y ↔
      (legal_candidate firing_ship broadside max_range x ∧
       y = (x, hex_distance firing_ship.bow_hex x.bow_hex)) := by
  unfold target_filter legal_candidate
  split_ifs with h1 h2 h3 h4 h5 <;> simp_all
  exact fun _ => eq_comm

/-- Helper: membership in `get_legal_targets` is exactly being a legal
candidate at the minimum candidate distance. -/
theorem mem_get_legal_targets (firing_ship : Ship) (all_ships : List Ship)
    (broadside : Broadside) (max_range : Nat) (s : Ship) :
    s ∈ get_legal_targets firing_ship all_ships broadside max_range ↔
      (s ∈ all_ships ∧ legal_candidate firing_ship broadside max_range s ∧
       ∀ s' ∈ all_ships, legal_candidate firing_ship broadside max_range s' →
         hex_distance firing_ship.bow_hex s.bow_hex ≤
           hex_distance firing_ship.bow_hex s'.bow_hex) := by
  unfold get_legal_targets
  dsimp only
  cases hmin : ((all_ships.filterMap
      (target_filter firing_ship
        (get_broadside_arc_hexes firing_ship broadside max_range) max_range)).map
      (fun p => p.2)).min? with
  | none =>
    rw [List.min?_eq_none_iff] at hmin
    have hcands : all_ships.filterMap
        (target_filter firing_ship
          (get_broadside_arc_hexes firing_ship broadside max_range) max_range) = [] := by
      rcases hc : all_ships.filterMap
          (target_filter firing_ship
            (get_broadside_arc_hexes firing_ship broadside max_range) max_range) with
        _ | ⟨p, t⟩
      · rfl
      · rw [hc] at hmin
        simp at hmin
    simp only [List.not_mem_nil, false_iff]
    rintro ⟨hmem, hcand, -⟩
    have : (s, hex_distance firing_ship.bow_hex s.bow_hex) ∈
        all_ships.filterMap
          (target_filter firing_ship
            (get_broadside_arc_hexes firing_ship broadside max_range) max_range) :=
      List.mem_filterMap.mpr
        ⟨s, hmem, (target_filter_eq_some _ _ _ _ _).mpr ⟨hcand, rfl⟩⟩
    rw [hcands] at this
    exact absurd this (List.not_mem_nil _)
  | some m =>
    have hm := (int_min?_eq_some_iff _ m).mp hmin
    constructor
    · intro hs
      obtain ⟨p, hpfil, hps⟩ := List.mem_map.mp hs
      have hpm := (List.mem_filter.mp hpfil).2
      have hpc := (List.mem_filter.mp hpfil).1
      obtain ⟨x, hxmem, hxf⟩ := List.mem_filterMap.mp hpc
      obtain ⟨hxcand, rfl⟩ := (target_filter_eq_some _ _ _ _ _).mp hxf
      subst hps
      have hdm : hex_distance firing_ship.bow_hex x.bow_hex = m := by
        simpa using hpm
      refine ⟨hxmem, hxcand, ?_⟩
      intro s' hs'mem hs'cand
      have : (s', hex_distance firing_ship.bow_hex s'.bow_hex) ∈
          all_ships.filterMap
            (target_filter firing_ship
              (get_broadside_arc_hexes firing_ship broadside max_range) max_range) :=
        List.mem_filterMap.mpr
          ⟨s', hs'mem, (target_filter_eq_some _ _ _ _ _).mpr ⟨hs'cand, rfl⟩⟩
      have hd' : hex_distance firing_ship.bow_hex s'.bow_hex ∈
          ((all_ships.filterMap
            (target_filter firing_ship
              (get_broadside_arc_hexes firing_ship broadside max_range) max_range)).map
            (fun p => p.2)) :=
        List.mem_map.mpr ⟨_, this, rfl⟩
      calc hex_distance firing_ship.bow_hex x.bow_hex = m := hdm
        _ ≤ _ := hm.2 _ hd'
    · rintro ⟨hmem, hcand, hminim⟩
      have hsin : (s, hex_distance firing_ship.bow_hex s.bow_hex) ∈
          all_ships.filterMap
            (target_filter firing_ship
              (get_broadside_arc_hexes firing_ship broadside max_range) max_range) :=
        List.mem_filterMap.mpr
          ⟨s, hmem, (target_filter_eq_some _ _ _ _ _).mpr ⟨hcand, rfl⟩⟩
      have hdsm : m ≤ hex_distance firing_ship.bow_hex s.bow_hex :=
        hm.2 _ (List.mem_map.mpr ⟨_, hsin, rfl⟩)
      obtain ⟨q, hqin, hqm⟩ := List.mem_map.mp hm.1
      obtain ⟨x, hxmem, hxf⟩ := List.mem_filterMap.mp hqin
      obtain ⟨hxcand, rfl⟩ := (target_filter_eq_some _ _ _ _ _).mp hxf
      have hxd : hex_distance firing_ship.bow_hex x.bow_hex = m := hqm
      have hle := hminim x hxmem hxcand
      have hdeq : hex_distance firing_ship.bow_hex s.bow_hex = m := by omega
      refine List.mem_map.mpr ⟨(s, hex_distance firing_ship.bow_hex s.bow_hex), ?_, rfl⟩
      refine List.mem_filter.mpr ⟨hsin, by simpa using hdeq⟩

/-- C6 witness: the becalmed ship (counter 2, mid-map, wind from the N)
drifts one hex south and resets its counter; the edge ship (bow on row 0,
wind from the S) is blocked and left unchanged. -/
theorem C6_witness :
    (becalmed_ship.turns_without_bow_advance ≥ 2 ∧
     (in_bounds 40 40 (get_adjacent_raw becalmed_ship.bow_hex
        ((get_downwind_direction WindDirection.N).toFacing)) ∧
      in_bounds 40 40 (get_adjacent_raw becalmed_ship.stern_hex
        ((get_downwind_direction WindDirection.N).toFacing))) ∧
     (drift_one_ship becalmed_ship ((get_downwind_direction WindDirection.N).toFacing)
         40 40 2).1 =
       { becalmed_ship with
           bow_hex := get_adjacent_raw becalmed_ship.bow_hex
             ((get_downwind_direction WindDirection.N).toFacing)
           stern_hex := get_adjacent_raw becalmed_ship.stern_hex
             ((get_downwind_direction WindDirection.N).toFacing)
           turns_without_bow_advance := 0 } ∧
     (⟨2, GamePhase.MOVEMENT, "drift"⟩ : EventLogEntry) ∈
       (apply_drift [becalmed_ship] WindDirection.N 40 40 2).2) ∧
    (edge_ship.turns_without_bow_advance ≥ 2 ∧
     (drift_one_ship edge_ship ((get_downwind_direction WindDirection.S).toFacing)
         40 40 2).1 = edge_ship ∧
     (⟨2, GamePhase.MOVEMENT, "drift_blocked"⟩ : EventLogEntry) ∈
       (apply_drift [edge_ship] WindDirection.S 40 40 2).2) := by
  have h1 := (((C6_drift_bounds [becalmed_ship] WindDirection.N 40 40 2).2.2
      becalmed_ship (by simp)).1 (by decide)).1 ⟨by decide, by decide⟩
  have h2 := (((C6_drift_bounds [edge_ship] WindDirection.S 40 40 2).2.2
      edge_ship (by simp)).1 (by decide)).2 (by decide)
  exact ⟨⟨by decide, ⟨by decide, by decide⟩, h1.1, h1.2⟩,
         ⟨by decide, h2.1, h2.2⟩⟩

/-- Helper: decomposition of a successful `fire_broadside` call: the turn
and phase checks passed, the firing ship was found and could fire, the
requested target was among the legal targets and was found, and the result
is the victory-check stage applied to the updated game. -/
theorem fire_broadside_ok (game : Game) (turn : Int)
    (request : FireBroadsideRequest) (hit_result : HitResult) (g' : Game)
    (h : fire_broadside game turn request hit_result = .ok g') :
    turn = game.turn_number ∧ game.phase = GamePhase.COMBAT ∧
    ∃ firing_ship target_ship,
      game.get_ship request.ship_id = some firing_ship ∧
      can_fire_broadside firing_ship request.broadside = true ∧
      (∃ s ∈ get_legal_targets firing_ship game.ships request.broadside,
        s.id = request.target_ship_id) ∧
      game.get_ship request.target_ship_id = some target_ship ∧
      fire_victory_check
        { game with
            ships := fire_update_ships game.ships request target_ship hit_result
            event_log := game.event_log ++
              [⟨turn, GamePhase.COMBAT, "broadside_fire"⟩] } turn = .ok g' := by
  unfold fire_broadside at h
  split_ifs at h with h1 h2
  cases hf : game.get_ship request.ship_id with
  | none => rw [hf] at h; exact absurd h (by simp)
  | some firing_ship =>
    rw [hf] at h
    dsimp only at h
    split_ifs at h with h3 h4 h5
    cases ht : game.get_ship request.target_ship_id with
    | none => rw [ht] at h; exact absurd h (by simp)
    | some target_ship =>
      rw [ht] at h
      refine ⟨by omega, by tauto, firing_ship, target_ship, rfl, ?_, ?_, rfl, h⟩
      · simpa using h3
      · obtain ⟨x, hx, hxe⟩ := List.any_eq_true.mp h5
        exact ⟨x, hx, by simpa using hxe⟩

/-- Helper: `find?` commutes with a map that preserves the predicate. -/
theorem find?_map_congr (l : List Ship) (p : Ship → Bool) (u : Ship → Ship)
    (hu : ∀ s, p (u s) = p s) : (l.map u).find? p = (l.find? p).map u := by
  induction l with
  | nil => rfl
  | cons a t ih =>
    by_cases hp : p a = true
    · rw [List.map_cons, List.find?_cons_of_pos _ ((hu a).trans hp),
        List.find?_cons_of_pos _ hp, Option.map_some']
    · rw [List.map_cons, List.find?_cons_of_neg _ (by rw [hu a]; exact hp),
        List.find?_cons_of_neg _ hp]
      exact ih

/-- Helper: `combat.apply_damage` changes no identity or pose field. -/
theorem apply_damage_id_fields (ship : Ship) (hit_result : HitResult)
    (aim : AimPoint) (broadside : Broadside) :
    (apply_damage ship hit_result aim broadside).id = ship.id ∧
    (apply_damage ship hit_result aim broadside).side = ship.side := by
  unfold apply_damage
  dsimp only
  split_ifs <;> exact ⟨rfl, rfl⟩

/-- Helper: marking a broadside fired changes neither id nor struck. -/
theorem mark_broadside_fired_fields (ship : Ship) (broadside : Broadside) :
    (mark_broadside_fired ship broadside).id = ship.id ∧
    (mark_broadside_fired ship broadside).struck = ship.struck := by
  unfold mark_broadside_fired
  split_ifs <;> exact ⟨rfl, rfl⟩

/-- Helper: the fire update is one elementwise update. -/
theorem fire_update_ships_eq (ships : List Ship)
    (request : FireBroadsideRequest) (target_ship : Ship) (hit_result : HitResult) :
    fire_update_ships ships request target_ship hit_result =
      ships.map (fire_update_one request
        (apply_damage target_ship hit_result request.aim request.broadside)) := by
  unfold fire_update_ships fire_update_one
  rw [List.map_map]
  rfl

/-- Helper: the per-entry fire update preserves ship ids (when the damaged
ship carries the target id). -/
theorem fire_update_one_id (request : FireBroadsideRequest) (damaged : Ship)
    (s : Ship) (hdid : damaged.id = request.target_ship_id) :
    (fire_update_one request damaged s).id = s.id := by
  unfold fire_update_one
  dsimp only
  by_cases h1 : s.id = request.target_ship_id
  · rw [if_pos h1]
    split_ifs with h2
    · rw [(mark_broadside_fired_fields damaged request.broadside).1, hdid, h1]
    · rw [hdid, h1]
  · rw [if_neg h1]
    split_ifs with h2
    · exact (mark_broadside_fired_fields s request.broadside).1
    · rfl

/-- Helper: the per-entry fire update sends the target entry to the
damaged ship. -/
theorem fire_update_one_target (request : FireBroadsideRequest) (damaged : Ship)
    (s : Ship) (hs : s.id = request.target_ship_id)
    (hne : damaged.id ≠ request.ship_id) :
    fire_update_one request damaged s = damaged := by
  unfold fire_update_one
  dsimp only
  rw [if_pos hs, if_neg hne]

/-- Helper: the per-entry fire update leaves a non-target entry's struck
flag alone. -/
theorem fire_update_one_struck (request : FireBroadsideRequest) (damaged : Ship)
    (s : Ship) (hs : ¬ s.id = request.target_ship_id) :
    (fire_update_one request damaged s).struck = s.struck := by
  unfold fire_update_one
  dsimp only
  rw [if_neg hs]
  split_ifs with h2
  · exact (mark_broadside_fired_fields s request.broadside).2
  · rfl

/-- Helper: looking the target up after the fire update yields exactly the
damaged target. -/
theorem fire_update_ships_target (ships : List Ship)
    (request : FireBroadsideRequest) (target_ship : Ship) (hit_result : HitResult)
    (htid : target_ship.id = request.target_ship_id)
    (hne : request.target_ship_id ≠ request.ship_id)
    (hfound : ships.find? (fun s => s.id = request.target_ship_id) = some target_ship) :
    (fire_update_ships ships request target_ship hit_result).find?
        (fun s => s.id = request.target_ship_id) =
      some (apply_damage target_ship hit_result request.aim request.broadside) := by
  have hdid : (apply_damage target_ship hit_result request.aim
      request.broadside).id = request.target_ship_id := by
    rw [(apply_damage_id_fields target_ship hit_result request.aim
      request.broadside).1, htid]
  rw [fire_update_ships_eq,
    find?_map_congr _ _ _ (fun s => by
      rw [fire_update_one_id _ _ _ hdid]),
    hfound, Option.map_some',
    fire_update_one_target _ _ _ htid (by rw [hdid]; exact hne)]

/-- Helper: decomposition of a successful victory-check stage. -/
theorem fire_victory_check_ok (g : Game) (t : Int) (g' : Game)
    (h : fire_victory_check g t = .ok g') :
    g'.ships = g.ships ∧
    ∃ result, check_victory_condition g = some result ∧
      ((result.game_ended = true ∧
        g' = { g with
                 game_ended := true
                 winner := result.winner
                 event_log := g.event_log ++
                   [create_victory_event result t GamePhase.COMBAT] }) ∨
       (result.game_ended = false ∧ g' = g)) := by
  unfold fire_victory_check at h
  cases hc : check_victory_condition g with
  | none => rw [hc] at h; exact absurd h (by simp)
  | some result =>
    rw [hc] at h
    dsimp only at h
    split_ifs at h with hge
    · cases h
      exact ⟨rfl, result, rfl, Or.inl ⟨hge, rfl⟩⟩
    · cases h
      exact ⟨rfl, result, rfl, Or.inr ⟨by simpa using hge, rfl⟩⟩

/-- Helper: when no ship was struck beforehand and the damaged target
strikes, the struck ships of the updated map are exactly the damaged
target (one copy per occurrence of its id). -/
theorem fire_update_ships_struck_filter (ships : List Ship)
    (request : FireBroadsideRequest) (target_ship : Ship) (hit_result : HitResult)
    (hns : ∀ s ∈ ships, s.struck = false)
    (hne : request.target_ship_id ≠ request.ship_id)
    (htid : target_ship.id = request.target_ship_id)
    (hd : (apply_damage target_ship hit_result request.aim request.broadside).struck = true) :
    (fire_update_ships ships request target_ship hit_result).filter
        (fun s => s.struck) =
      (ships.filter (fun s => s.id = request.target_ship_id)).map
        (fun _ => apply_damage target_ship hit_result request.aim request.broadside) := by
  have hdid : (apply_damage target_ship hit_result request.aim
      request.broadside).id = request.target_ship_id := by
    rw [(apply_damage_id_fields target_ship hit_result request.aim
      request.broadside).1, htid]
  rw [fire_update_ships_eq]
  induction ships with
  | nil => rfl
  | cons a t ih =>
    have iht := ih (fun s hs => hns s (List.mem_cons_of_mem a hs))
    simp only [List.map_cons, List.filter_cons]
    by_cases ha : a.id = request.target_ship_id
    · rw [fire_update_one_target _ _ _ ha (by rw [hdid]; exact hne)]
      rw [if_pos hd, if_pos (by simpa using ha), List.map_cons]
      exact congrArg _ iht
    · rw [if_neg (by
          rw [fire_update_one_struck _ _ _ ha,
            hns a (List.mem_cons_self a t)]
          simp),
        if_neg (by simpa using ha)]
      exact iht

/-- Helper: with pairwise-distinct ids, a member carrying the searched id
is the ship `find?` returns. -/
theorem ships_wf_find_unique (ships : List Ship) (q : String) (s t : Ship)
    (hwf : ships_wf ships) (hs : s ∈ ships) (hsq : s.id = q)
    (hfind : ships.find? (fun x => x.id = q) = some t) : s = t := by
  induction ships with
  | nil => cases hs
  | cons a l ih =>
    rw [ships_wf, List.pairwise_cons] at hwf
    by_cases haq : a.id = q
    · rw [List.find?_cons_of_pos _ (by simpa using haq)] at hfind
      cases hfind
      rcases List.mem_cons.mp hs with rfl | hs2
      · rfl
      · exact absurd (hsq.trans haq.symm).symm (hwf.1 s hs2)
    · rw [List.find?_cons_of_neg _ (by simpa using haq)] at hfind
      rcases List.mem_cons.mp hs with rfl | hs2
      · exact absurd hsq haq
      · exact ih hwf.2 hs2 hfind

/-- Helper: `combat.apply_damage` strikes the target exactly when its hull
is at (or below) zero afterwards, and otherwise leaves the flag alone. -/
theorem apply_damage_struck (ship : Ship) (hit_result : HitResult)
    (aim : AimPoint) (broadside : Broadside) :
    (apply_damage ship hit_result aim broadside).struck =
      (ship.struck || decide ((apply_damage ship hit_result aim broadside).hull ≤ 0)) := by
  unfold apply_damage
  dsimp only
  split_ifs <;> simp_all

/-- Helper: the damaged target is what a successful fire's result stores
under the target id. -/
theorem fire_ok_target_lookup (game : Game) (turn : Int)
    (request : FireBroadsideRequest) (hit_result : HitResult) (g' : Game)
    (target_ship : Ship)
    (hok : fire_broadside game turn request hit_result = .ok g')
    (ht : game.get_ship request.target_ship_id = some target_ship) :
    g'.get_ship request.target_ship_id =
      some (apply_damage target_ship hit_result request.aim request.broadside) := by
  obtain ⟨-, -, firing_ship, target2, hf, -, ⟨s, hsmem, hsid⟩, ht2, hvc⟩ :=
    fire_broadside_ok _ _ _ _ _ hok
  rw [ht] at ht2
  have htq : target2 = target_ship := (Option.some.inj ht2).symm
  rw [htq] at hvc
  obtain ⟨hships, -⟩ := fire_victory_check_ok _ _ _ hvc
  have hfid : firing_ship.id = request.ship_id := by
    have := List.find?_some hf
    simpa using this
  have hsne : s.id ≠ firing_ship.id :=
    ((mem_get_legal_targets _ _ _ _ _).mp hsmem).2.1.1
  have hne : request.target_ship_id ≠ request.ship_id := by
    rw [← hsid, ← hfid]
    exact hsne
  have htid : target_ship.id = request.target_ship_id := by
    have := List.find?_some ht
    simpa using this
  unfold Game.get_ship
  rw [hships]
  exact fire_update_ships_target game.ships request target_ship hit_result
    htid hne ht

/-- C5 (amended): the legal-target set is exactly the enemy, non-struck
ships with bow or stern in the broadside's arc *and bow-to-bow distance at
most max_range* that realise the minimum such distance (all ties
included); and a successful fire always names a ship of that set — a
request naming any other target is refused. -/
theorem C5_closest_target_rule :
    (∀ (firing_ship : Ship) (all_ships : List Ship) (broadside : Broadside)
        (max_range : Nat) (s : Ship),
      s ∈ get_legal_targets firing_ship all_ships broadside max_range ↔
        (s ∈ all_ships ∧ legal_candidate firing_ship broadside max_range s ∧
         ∀ s' ∈ all_ships, legal_candidate firing_ship broadside max_range s' →
           hex_distance firing_ship.bow_hex s.bow_hex ≤
             hex_distance firing_ship.bow_hex s'.bow_hex)) ∧
    (∀ (game : Game) (turn : Int) (request : FireBroadsideRequest)
        (hit_result : HitResult) (g' : Game),
      fire_broadside game turn request hit_result = .ok g' →
      ∃ firing_ship, game.get_ship request.ship_id = some firing_ship ∧
        ∃ s ∈ get_legal_targets firing_ship game.ships request.broadside,
          s.id = request.target_ship_id) := by
  refine ⟨mem_get_legal_targets, ?_⟩
  intro game turn request hit_result g' h
  obtain ⟨-, -, firing_ship, -, hf, -, hlegal, -, -⟩ :=
    fire_broadside_ok _ _ _ _ _ h
  exact ⟨firing_ship, hf, hlegal⟩

/-- C5 counterexample: in the boundary geometry the claim's set (enemy,
non-struck, in arc, at minimum distance — with no range cap) contains the
enemy whose bow sits on the widened arc hex (11,9) at distance 11, yet
`get_legal_targets` is empty and firing at that enemy is refused. -/
theorem C5_counterexample :
    legal_targets_claimed boundary_firing boundary_ships Broadside.L 10 =
      [boundary_enemy] ∧
    get_legal_targets boundary_firing boundary_ships Broadside.L 10 = [] ∧
    fire_broadside boundary_game 1
      { ship_id := "bf", broadside := Broadside.L, target_ship_id := "be",
        aim := AimPoint.HULL } one_hit = .error .no_legal_targets := by
  exact ⟨by decide, by decide, by rfl⟩

/-- C5 witness: the generic membership characterisation and the
fire-success condition evaluated on the Scenario E game (two enemies at
distances 4 and 8; only the closer one is legal). -/
theorem C5_witness :
    (scenario_near_enemy ∈
        get_legal_targets scenario_firing scenario_game.ships Broadside.R 10 ↔
      (scenario_near_enemy ∈ scenario_game.ships ∧
       legal_candidate scenario_firing Broadside.R 10 scenario_near_enemy ∧
       ∀ s' ∈ scenario_game.ships,
         legal_candidate scenario_firing Broadside.R 10 s' →
           hex_distance scenario_firing.bow_hex scenario_near_enemy.bow_hex ≤
             hex_distance scenario_firing.bow_hex s'.bow_hex)) ∧
    ∃ firing_ship, scenario_game.get_ship "f1" = some firing_ship ∧
      ∃ s ∈ get_legal_targets firing_ship scenario_game.ships Broadside.R,
        s.id = "t1" :=
  ⟨C5_closest_target_rule.1 scenario_firing scenario_game.ships Broadside.R 10
      scenario_near_enemy,
   C5_closest_target_rule.2 scenario_game 1 scenario_fire_request one_hit
      scenario_fire_result (by rfl)⟩

/-- C2 (amended): on the `fire_broadside` path the damage applier is
`combat.apply_damage`, which applies crew casualties wholly to crew —
after a successful fire the stored target is `apply_damage` of the old
target, its crew is `max 0 (crew - casualties)` and its marines are
unchanged; the marines-first ordering of the claim is implemented only by
`damage.apply_hit_result_to_ship`, which this endpoint does not call. -/
theorem C2_casualties_crew_only (game : Game) (turn : Int)
    (request : FireBroadsideRequest) (hit_result : HitResult) (g' : Game)
    (target_ship : Ship)
    (hok : fire_broadside game turn request hit_result = .ok g')
    (ht : game.get_ship request.target_ship_id = some target_ship)
    (hw : hit_result.wf) (htr : tracks_nonneg target_ship)
    (haim : request.aim = AimPoint.HULL) :
    g'.get_ship request.target_ship_id =
      some (apply_damage target_ship hit_result request.aim request.broadside) ∧
    (apply_damage target_ship hit_result request.aim request.broadside).crew =
      max 0 (target_ship.crew - hit_result.crew_casualties) ∧
    (apply_damage target_ship hit_result request.aim request.broadside).marines =
      target_ship.marines ∧
    (apply_hit_result_to_ship target_ship hit_result AimPoint.HULL
        (some request.broadside)).2.marines_lost =
      min hit_result.crew_casualties target_ship.marines := by
  obtain ⟨hw1, hw2, hw3⟩ := hw
  refine ⟨fire_ok_target_lookup _ _ _ _ _ _ hok ht, ?_, ?_, ?_⟩
  · unfold apply_damage
    unfold tracks_nonneg at htr
    dsimp only
    split_ifs <;> dsimp only <;> omega
  · unfold apply_damage
    dsimp only
    split_ifs <;> rfl
  · unfold tracks_nonneg at htr
    unfold apply_hit_result_to_ship apply_hit_damage apply_casualties
    dsimp only
    split_ifs <;> dsimp only <;>
      first
        | exact absurd rfl (by assumption)
        | rfl
        | omega

/-- C2 counterexample: a successful fire whose hit result carries one crew
casualty against a target with 2 marines and 10 crew leaves the marines at
2 and drops crew to 9 — crew is reduced while marines remain, and the
marines lose 0 rather than `min(1, 2) = 1`. -/
theorem C2_counterexample :
    ((fire_broadside sturdy_game 1 scenario_fire_request
          one_hit_one_casualty).toOption.bind
        (fun g => g.get_ship "t1")).map (fun s => (s.marines, s.crew)) =
      some (2, 9) ∧
    sturdy_near_enemy.marines = 2 ∧ sturdy_near_enemy.crew = 10 ∧
    one_hit_one_casualty.crew_casualties = 1 ∧
    min (1 : Int) 2 = 1 :=
  ⟨by rfl, by rfl, by rfl, by rfl, by rfl⟩

/-- C2 witness: the amended characterisation evaluated on the concrete
casualty example. -/
theorem C2_witness :
    fire_broadside sturdy_game 1 scenario_fire_request one_hit_one_casualty =
      .ok sturdy_fire_result ∧
    sturdy_game.get_ship "t1" = some sturdy_near_enemy ∧
    sturdy_fire_result.get_ship "t1" =
      some (apply_damage sturdy_near_enemy one_hit_one_casualty
        AimPoint.HULL Broadside.R) :=
  ⟨by rfl, by rfl,
   (C2_casualties_crew_only sturdy_game 1 scenario_fire_request
      one_hit_one_casualty sturdy_fire_result sturdy_near_enemy (by rfl) (by rfl)
      (by decide) (by decide) rfl).1⟩

/-- Helper: `damage._apply_gun_damage` never touches the struck flag. -/
theorem apply_gun_damage_struck (ship : Ship) (gun_damage : Int)
    (target_broadside : Option Broadside) :
    (apply_gun_damage ship gun_damage target_broadside).1.struck = ship.struck := by
  unfold apply_gun_damage
  rcases target_broadside with _ | b
  · rfl
  · cases b <;> rfl

/-- Helper: the casualty block never touches the struck flag. -/
theorem apply_casualties_struck (ship : Ship) (casualties : Int) :
    (apply_casualties ship casualties).1.struck = ship.struck := by
  unfold apply_casualties
  dsimp only
  split_ifs <;> rfl

/-- Helper: the aim-dependent damage block never touches the struck flag. -/
theorem apply_hit_damage_struck (ship : Ship) (hit_result : HitResult)
    (aim : AimPoint) (target_broadside : Option Broadside) :
    (apply_hit_damage ship hit_result aim target_broadside).1.struck = ship.struck := by
  unfold apply_hit_damage
  dsimp only
  split_ifs with h1 h2
  · rw [apply_gun_damage_struck, apply_casualties_struck]
  · rw [apply_casualties_struck]
  · rfl

/-- C3 (amended): for the `damage.apply_hit_result_to_ship` applier the
struck flag reported (and set) by an application holds exactly when hull
just dropped from positive to 0 or crew + marines is 0 afterwards, and the
ship flag is only ever turned on, never off; but the damage applied by a
`fire_broadside` call is `combat.apply_damage` (third conjunct), which
strikes exactly when the resulting hull is at (or below) 0 — without the
transition requirement and without the crew + marines condition. -/
theorem C3_struck_condition :
    (∀ (ship : Ship) (hit_result : HitResult) (aim : AimPoint)
        (target_broadside : Option Broadside),
      ((apply_hit_result_to_ship ship hit_result aim target_broadside).2.struck = true ↔
        (((apply_hit_result_to_ship ship hit_result aim target_broadside).1.hull = 0 ∧
            ship.hull > 0) ∨
          (apply_hit_result_to_ship ship hit_result aim target_broadside).1.crew +
            (apply_hit_result_to_ship ship hit_result aim target_broadside).1.marines
            = 0)) ∧
      ((apply_hit_result_to_ship ship hit_result aim target_broadside).1.struck =
        (ship.struck ||
          (apply_hit_result_to_ship ship hit_result aim target_broadside).2.struck))) ∧
    (∀ (ship : Ship) (hit_result : HitResult) (aim : AimPoint)
        (broadside : Broadside),
      (apply_damage ship hit_result aim broadside).struck =
        (ship.struck ||
          decide ((apply_damage ship hit_result aim broadside).hull ≤ 0))) ∧
    (∀ (game : Game) (turn : Int) (request : FireBroadsideRequest)
        (hit_result : HitResult) (g' : Game) (target_ship : Ship),
      fire_broadside game turn request hit_result = .ok g' →
      game.get_ship request.target_ship_id = some target_ship →
      g'.get_ship request.target_ship_id =
        some (apply_damage target_ship hit_result request.aim request.broadside)) := by
  refine ⟨?_, apply_damage_struck,
    fun game turn request hit_result g' target_ship hok ht =>
      fire_ok_target_lookup game turn request hit_result g' target_ship hok ht⟩
  intro ship hit_result aim target_broadside
  have hstruckpre := apply_hit_damage_struck ship hit_result aim target_broadside
  constructor
  · unfold apply_hit_result_to_ship check_struck_condition
    dsimp only
    split_ifs with h1 h2 <;> simp_all
  · unfold apply_hit_result_to_ship check_struck_condition
    dsimp only
    split_ifs with h1 h2 <;> simp_all

/-- C3 counterexample: a fire at a sound-hulled ship with nobody aboard
(crew 0, marines 0) leaves it unstruck, although the claim's condition
`crew + marines = 0 after the application` demands striking — the
fire path checks only the hull. -/
theorem C3_counterexample :
    apply_damage ghost_ship zero_hit AimPoint.HULL Broadside.R = ghost_ship ∧
    ghost_ship.struck = false ∧
    ghost_ship.crew + ghost_ship.marines = 0 ∧
    ghost_ship.hull = 5 ∧
    ((fire_broadside ghost_game 1
          { ship_id := "f1", broadside := Broadside.R, target_ship_id := "gh",
            aim := AimPoint.HULL } zero_hit).toOption.bind
        (fun g => g.get_ship "gh")).map (fun s => s.struck) = some false :=
  ⟨by decide, by rfl, by rfl, by rfl, by rfl⟩

/-- C3 witness: the fire-path conjunct evaluated on the Scenario F fire. -/
theorem C3_witness :
    fire_broadside scenario_game 1 scenario_fire_request one_hit =
      .ok scenario_fire_result ∧
    scenario_game.get_ship "t1" = some scenario_near_enemy ∧
    scenario_fire_result.get_ship "t1" =
      some (apply_damage scenario_near_enemy one_hit AimPoint.HULL Broadside.R) :=
  ⟨by rfl, by rfl,
   C3_struck_condition.2.2 scenario_game 1 scenario_fire_request one_hit
     scenario_fire_result scenario_near_enemy (by rfl) (by rfl)⟩

/-- C1: in a first-struck game with no ship already struck, a successful
`fire_broadside` whose damage drops the target's hull from a positive
value to 0 leaves the target struck and — in the spec-modelled victory
stage (`fire_victory_check`) — ends the game, sets the winner to the
firing ship's side, and appends a `game_end` event to the log. -/
theorem C1_first_struck_victory (game : Game) (turn : Int)
    (request : FireBroadsideRequest) (hit_result : HitResult) (g' : Game)
    (firing_ship target_ship : Ship)
    (hwf : ships_wf game.ships)
    (hvc : game.victory_condition = "first_struck")
    (hns : ∀ s ∈ game.ships, s.struck = false)
    (hok : fire_broadside game turn request hit_result = .ok g')
    (hf : game.get_ship request.ship_id = some firing_ship)
    (ht : game.get_ship request.target_ship_id = some target_ship)
    (hhull : target_ship.hull > 0)
    (hdrop : (apply_damage target_ship hit_result request.aim
        request.broadside).hull = 0) :
    (g'.get_ship request.target_ship_id).map (fun s => s.struck) = some true ∧
    g'.game_ended = true ∧
    g'.winner = some firing_ship.side ∧
    ∃ e ∈ g'.event_log, e.event_type = "game_end" := by
  obtain ⟨hturn, hphase, firing2, target2, hf2, hcan, ⟨s, hsmem, hsid⟩, ht2, hvcheck⟩ :=
    fire_broadside_ok _ _ _ _ _ hok
  rw [hf] at hf2
  obtain rfl : firing_ship = firing2 := Option.some.inj hf2
  rw [ht] at ht2
  have htq : target_ship = target2 := Option.some.inj ht2
  rw [← htq] at hvcheck
  have hfid : firing_ship.id = request.ship_id := by
    simpa using List.find?_some hf
  have htid : target_ship.id = request.target_ship_id := by
    simpa using List.find?_some ht
  have hmem_t : target_ship ∈ game.ships := List.mem_of_find?_eq_some ht
  obtain ⟨hsships, hscand, -⟩ := (mem_get_legal_targets _ _ _ _ _).mp hsmem
  obtain rfl : target_ship = s :=
    (ships_wf_find_unique game.ships request.target_ship_id s target_ship
      hwf hsships hsid ht).symm
  have hside : target_ship.side ≠ firing_ship.side := hscand.2.1
  have hne : request.target_ship_id ≠ request.ship_id := by
    rw [← htid, ← hfid]
    exact hscand.1
  have hdstruck : (apply_damage target_ship hit_result request.aim
      request.broadside).struck = true := by
    rw [apply_damage_struck, hns target_ship hmem_t, hdrop]
    simp
  obtain ⟨hgships, result, hres, hcases⟩ := fire_victory_check_ok _ _ _ hvcheck
  have hcvc : result = check_first_struck
      { game with
          ships := fire_update_ships game.ships request target_ship hit_result,
          event_log := game.event_log ++
            [⟨turn, GamePhase.COMBAT, "broadside_fire"⟩] } := by
    unfold check_victory_condition at hres
    dsimp only at hres
    rw [hvc] at hres
    rw [if_pos rfl] at hres
    exact (Option.some.inj hres).symm
  have hfilter := fire_update_ships_struck_filter game.ships request target_ship
    hit_result hns hne htid hdstruck
  have htin : target_ship ∈ game.ships.filter
      (fun s => s.id = request.target_ship_id) :=
    List.mem_filter.mpr ⟨hmem_t, by simpa using htid⟩
  have hresval : result =
      ({ game_ended := true,
         winner := some
           (if target_ship.side = Side.P1 then Side.P2 else Side.P1) } :
        VictoryResult) := by
    rw [hcvc]
    unfold check_first_struck
    dsimp only
    rw [hfilter]
    cases hfil : game.ships.filter (fun s => s.id = request.target_ship_id) with
    | nil => rw [hfil] at htin; exact absurd htin (List.not_mem_nil _)
    | cons b bs =>
      rw [List.map_cons]
      dsimp only
      rw [(apply_damage_id_fields target_ship hit_result request.aim
        request.broadside).2]
  have hwinner : (if target_ship.side = Side.P1 then Side.P2 else Side.P1) =
      firing_ship.side := by
    cases hts : target_ship.side <;> cases hfs : firing_ship.side <;> simp_all
  rcases hcases with ⟨hge, hgeq⟩ | ⟨hge, -⟩
  · subst hgeq
    refine ⟨?_, rfl, ?_, ?_⟩
    · have := fire_update_ships_target game.ships request target_ship hit_result
        htid hne ht
      unfold Game.get_ship
      dsimp only
      rw [this, Option.map_some', hdstruck]
    · rw [hresval]
      dsimp only
      rw [hwinner]
    · refine ⟨create_victory_event result turn GamePhase.COMBAT, ?_, rfl⟩
      dsimp only
      exact List.mem_append_right _ (List.mem_singleton.mpr rfl)
  · rw [hresval] at hge
    simp at hge

/-- C1 witness: the Scenario F fire (hull 1 target, one hit) evaluated
concretely — the target strikes, the game ends, P1 wins, and a game_end
event is appended. -/
theorem C1_witness :
    (ships_wf scenario_game.ships ∧
     scenario_game.victory_condition = "first_struck" ∧
     (∀ s ∈ scenario_game.ships, s.struck = false) ∧
     fire_broadside scenario_game 1 scenario_fire_request one_hit =
       .ok scenario_fire_result ∧
     scenario_near_enemy.hull > 0 ∧
     (apply_damage scenario_near_enemy one_hit AimPoint.HULL Broadside.R).hull = 0) ∧
    ((scenario_fire_result.get_ship "t1").map (fun s => s.struck) = some true ∧
     scenario_fire_result.game_ended = true ∧
     scenario_fire_result.winner = some scenario_firing.side ∧
     ∃ e ∈ scenario_fire_result.event_log, e.event_type = "game_end") :=
  ⟨⟨by decide, rfl, by decide, by rfl, by decide, by decide⟩,
   C1_first_struck_victory scenario_game 1 scenario_fire_request one_hit
     scenario_fire_result scenario_firing scenario_near_enemy
     (by decide) rfl (by decide) (by rfl) (by rfl) (by rfl)
     (by decide) (by decide)⟩

/-- Helper: a member of a dict assignment is the assigned value or an
original member. -/
theorem dict_set_ship_mem (ships : List Ship) (ship_id : String) (v x : Ship)
    (hx : x ∈ dict_set_ship ships ship_id v) : x = v ∨ x ∈ ships := by
  unfold dict_set_ship at hx
  split_ifs at hx
  · obtain ⟨y, hy, hxy⟩ := List.mem_map.mp hx
    by_cases hyq : y.id = ship_id
    · left
      rw [← hxy, if_pos hyq]
    · right
      rw [← hxy, if_neg hyq]
      exact hy
  · rcases List.mem_append.mp hx with h | h
    · right; exact h
    · left; simpa using h

/-- C8: no engine operation drives a damage track below zero — the two
damage appliers clamp every track at 0, and movement steps, drift, reload,
turn advance and collision displacement leave the six tracks untouched
(displacement restores a pre-movement ship wholesale). -/
theorem C8_tracks_nonnegative :
    (∀ (ship : Ship) (hit_result : HitResult) (aim : AimPoint)
        (target_broadside : Option Broadside), tracks_nonneg ship →
      tracks_nonneg (apply_hit_result_to_ship ship hit_result aim
        target_broadside).1) ∧
    (∀ (ship : Ship) (hit_result : HitResult) (aim : AimPoint)
        (broadside : Broadside), tracks_nonneg ship →
      tracks_nonneg (apply_damage ship hit_result aim broadside)) ∧
    (∀ (ship : Ship) (turn_direction : MovementActionType) (s' : Ship),
      execute_ship_turn ship turn_direction = .ok s' →
      tracks_of s' = tracks_of ship) ∧
    (∀ (ship : Ship) (distance map_width map_height : Int) (s' : Ship),
      execute_ship_forward_movement ship distance map_width map_height = .ok s' →
      tracks_of s' = tracks_of ship) ∧
    (∀ (ship : Ship) (downwind_facing : Facing)
        (map_width map_height turn_number : Int),
      tracks_of (drift_one_ship ship downwind_facing map_width map_height
        turn_number).1 = tracks_of ship) ∧
    (∀ ship : Ship, tracks_of (reload_ship ship).1 = tracks_of ship) ∧
    (∀ (game : Game) (turn : Int) (g' : Game),
      advance_turn game turn = .ok g' → g'.ships = game.ships) ∧
    (∀ (ships ships_before : List Ship) (resolution : CollisionResolution),
      (∀ s ∈ ships, tracks_nonneg s) →
      (∀ s ∈ ships_before, tracks_nonneg s) →
      ∀ s ∈ apply_collision_resolution ships ships_before resolution,
        tracks_nonneg s) := by
  refine ⟨apply_hit_result_tracks_nonneg, apply_damage_tracks_nonneg,
    ?_, ?_, ?_, ?_, ?_, ?_⟩
  · intro ship turn_direction s' h
    unfold execute_ship_turn at h
    cases turn_direction <;> dsimp only at h
    case TURN_LEFT =>
      cases hc : calculate_stern_from_bow ship.bow_hex (turn_left ship.facing) with
      | none => rw [hc] at h; exact absurd h (by simp)
      | some ns => rw [hc] at h; cases h; rfl
    case TURN_RIGHT =>
      cases hc : calculate_stern_from_bow ship.bow_hex (turn_right ship.facing) with
      | none => rw [hc] at h; exact absurd h (by simp)
      | some ns => rw [hc] at h; cases h; rfl
    case MOVE_FORWARD => exact absurd h (by simp)
    case NO_MOVEMENT => exact absurd h (by simp)
  · intro ship distance map_width map_height s' h
    unfold execute_ship_forward_movement at h
    split_ifs at h with hd
    · cases h; rfl
    · cases hfs : forward_steps ship.facing map_width map_height distance.toNat
          (ship.bow_hex.col, ship.bow_hex.row) with
      | error e => rw [hfs] at h; exact absurd h (by simp)
      | ok pos =>
        obtain ⟨c, r⟩ := pos
        rw [hfs] at h
        dsimp only at h
        cases hc : calculate_stern_from_bow ⟨c, r⟩ ship.facing with
        | none => rw [hc] at h; exact absurd h (by simp)
        | some ns => rw [hc] at h; cases h; rfl
  · intro ship downwind_facing map_width map_height turn_number
    unfold drift_one_ship
    dsimp only
    split_ifs <;> rfl
  · intro ship
    unfold reload_ship reload_broadside
    dsimp only
    split_ifs <;> rfl
  · intro game turn g' h
    unfold advance_turn require_not_ended at h
    split_ifs at h
    cases h
    rfl
  · intro ships ships_before resolution h1 h2
    unfold apply_collision_resolution
    generalize resolution.displaced_ship_ids = ids
    induction ids generalizing ships with
    | nil => exact h1
    | cons i rest ih =>
      rw [List.foldl_cons]
      refine ih _ ?_
      intro s hs
      split at hs
      · exact h1 s hs
      · next prev hfind =>
        rcases dict_set_ship_mem _ _ _ _ hs with rfl | hmem
        · exact h2 s (List.mem_of_find?_eq_some hfind)
        · exact h1 s hmem

/-- C8 witness: both damage appliers keep every track of a concrete damaged
ship at or above zero, including a ship already at zero crew and marines. -/
theorem C8_witness :
    tracks_nonneg (apply_damage scenario_near_enemy one_hit AimPoint.HULL
      Broadside.R) ∧
    tracks_nonneg (apply_hit_result_to_ship ghost_ship one_hit AimPoint.HULL
      (some Broadside.R)).1 :=
  ⟨C8_tracks_nonnegative.2.1 scenario_near_enemy one_hit AimPoint.HULL
      Broadside.R (by decide),
    C8_tracks_nonnegative.1 ghost_ship one_hit AimPoint.HULL
      (some Broadside.R) (by decide)⟩
